import Mathlib

/-!
# SlitherStakes simulation core: shallow embedding and verification

This file embeds the server-side simulation core of the SlitherStakes
repository (`src/server/game/snake.js`, `food.js`, `collision.js`, `bot.js`,
`src/server/rooms/room.js`) in Lean 4 and proves properties of it.

Modelling conventions:
* JavaScript numbers are modelled as exact rationals (`ℚ`).
* The transcendental library functions (`Math.PI`, `Math.cos`, `Math.sin`,
  `Math.atan2`, `Math.sqrt`, also used via `Math.hypot`) are abstracted into a
  `MathOps` record passed to every definition that uses them; the embedded
  control flow applies them exactly where the source does.  Theorems quantify
  over an arbitrary `MathOps`, concrete evaluations instantiate one.
* `Math.random()` call sites are modelled by explicit streams `ℕ → ℚ` carried
  in the structures that use them, consumed left to right.
* `uuidv4()` ids are modelled by a fresh-id counter (uuids are fresh ids).
* JavaScript `Map`s are modelled as lists in insertion order; `Map.set`
  replaces in place when the key is present and appends otherwise.
-/

set_option linter.unusedVariables false

namespace SlitherStakes

/-- Abstraction of the transcendental functions of JavaScript `Math` used by
the source.  `atan2 dy dx` follows the JavaScript argument order. -/
structure MathOps where
  pi : ℚ
  cos : ℚ → ℚ
  sin : ℚ → ℚ
  atan2 : ℚ → ℚ → ℚ
  sqrt : ℚ → ℚ

/-! ## Constants from `snake.js` -/

def SEGMENT_SPACING : ℚ := 5
def BASE_SPEED : ℚ := 3
def BOOST_SPEED : ℚ := 6
def HEAD_RADIUS : ℚ := 15
def SEGMENT_RADIUS : ℚ := 12
def INITIAL_LENGTH : ℕ := 10
def MIN_LENGTH : ℕ := 3
def TURN_RATE_BASE : ℚ := 0.15
def TURN_RATE_SCALE : ℚ := 0.005

/-- A 2D point (a body segment position `{x, y}`). -/
structure Pt where
  x : ℚ
  y : ℚ
deriving DecidableEq, Repr

/-- A body segment position together with its collision radius, as produced by
`Snake.getBodyPositions`. -/
structure BodyPos where
  x : ℚ
  y : ℚ
  radius : ℚ
deriving DecidableEq, Repr

/-- The `Snake` entity of `snake.js`.  Fields mirror the constructor. -/
structure Snake where
  id : ℕ
  name : String
  color : String
  x : ℚ
  y : ℚ
  angle : ℚ
  targetAngle : ℚ
  segments : List Pt
  alive : Bool
  boosting : Bool
  kills : ℕ
  value : ℚ
  maxLength : ℕ
  foodEaten : ℚ
  isBot : Bool
deriving Repr

namespace Snake

/-- `initializeSegments`: `INITIAL_LENGTH` segments trailing the head opposite
to the heading. -/
def initSegments (M : MathOps) (x y angle : ℚ) : List Pt :=
  (List.range INITIAL_LENGTH).map fun (i : ℕ) =>
    { x := x - ((i : ℚ) + 1) * SEGMENT_SPACING * M.cos angle
      y := y - ((i : ℚ) + 1) * SEGMENT_SPACING * M.sin angle }

/-- The `Snake` constructor.  `angleRand` stands for the `Math.random()` value
used for the initial heading; `color` stands for the chosen color. -/
def mk0 (M : MathOps) (id : ℕ) (name : String) (x y : ℚ) (color : String)
    (angleRand : ℚ) : Snake :=
  let angle := angleRand * M.pi * 2
  { id := id, name := name, color := color, x := x, y := y
    angle := angle, targetAngle := angle
    segments := initSegments M x y angle
    alive := true, boosting := false, kills := 0, value := 0
    maxLength := INITIAL_LENGTH, foodEaten := 0, isBot := false }

/-- `get length()`: the segment count. -/
def length (s : Snake) : ℕ := s.segments.length

/-- `get headRadius()`. -/
def headRadius (s : Snake) : ℚ := HEAD_RADIUS + min ((s.length : ℚ) * 0.1) 10

/-- `get segmentRadius()`. -/
def segmentRadius (s : Snake) : ℚ := SEGMENT_RADIUS + min ((s.length : ℚ) * 0.08) 8

/-- `get turnRate()`. -/
def turnRate (s : Snake) : ℚ := max 0.03 (TURN_RATE_BASE - (s.length : ℚ) * TURN_RATE_SCALE)

/-- `get speed()`. -/
def speed (s : Snake) : ℚ :=
  (if s.boosting then BOOST_SPEED else BASE_SPEED) - min ((s.length : ℚ) * 0.01) 1

/-- `setTarget(x, y)`. -/
def setTarget (M : MathOps) (s : Snake) (tx ty : ℚ) : Snake :=
  { s with targetAngle := M.atan2 (ty - s.y) (tx - s.x) }

/-- `setBoost(active)`: honored only above the minimum length. -/
def setBoost (s : Snake) (active : Bool) : Snake :=
  { s with boosting := active && decide (MIN_LENGTH < s.length) }

/-- `die()`. -/
def die (s : Snake) : Snake := { s with alive := false, boosting := false }

/-- Closed form of the loop `while (angleDiff > PI) angleDiff -= PI*2`.
For `0 < pi` the loop runs exactly `⌈(d - pi) / (2*pi)⌉` times, each iteration
subtracting `2*pi`; the source always calls it with `pi = Math.PI > 0`. -/
def wrapDown (pi d : ℚ) : ℚ :=
  if 0 < pi ∧ pi < d then d - 2 * pi * (⌈(d - pi) / (2 * pi)⌉ : ℤ) else d

/-- Closed form of the loop `while (angleDiff < -PI) angleDiff += PI*2`
(see `wrapDown`). -/
def wrapUp (pi d : ℚ) : ℚ :=
  if 0 < pi ∧ d < -pi then d + 2 * pi * (⌈(-pi - d) / (2 * pi)⌉ : ℤ) else d

/-- `Math.sign`. -/
def signQ (q : ℚ) : ℚ := if 0 < q then 1 else if q < 0 then -1 else 0

/-- The follow-the-leader segment pass of `update`: each segment is pulled to
exactly `SEGMENT_SPACING` behind its leader whenever the gap exceeds the
spacing, and then becomes the leader of the next segment. -/
def rethread (M : MathOps) : ℚ → ℚ → List Pt → List Pt
  | _, _, [] => []
  | lx, ly, seg :: rest =>
    let dx := lx - seg.x
    let dy := ly - seg.y
    let dist := M.sqrt (dx * dx + dy * dy)
    let seg' := if SEGMENT_SPACING < dist then
        { x := lx - dx * (SEGMENT_SPACING / dist)
          y := ly - dy * (SEGMENT_SPACING / dist) : Pt }
      else seg
    seg' :: rethread M seg'.x seg'.y rest

/-- `shrink`'s loop: pop up to `n` tail segments while strictly above the
minimum length. -/
def popSegs : ℕ → List Pt → List Pt
  | 0, l => l
  | n + 1, l => if MIN_LENGTH < l.length then popSegs n l.dropLast else l

/-- `shrink(amount)`. -/
def shrink (s : Snake) (amount : ℕ) : Snake :=
  { s with segments := popSegs amount s.segments }

/-- The number of iterations of `for (let i = 0; i < amount; i++)` for a
(possibly fractional) JavaScript number `amount`. -/
def growCount (amount : ℚ) : ℕ := (⌈amount⌉ : ℤ).toNat

/-- `grow(amount)`: append copies of the last segment (or the head position if
there are no segments) and track stats. -/
def grow (s : Snake) (amount : ℚ) : Snake :=
  let lastSeg := s.segments.getLast?.getD { x := s.x, y := s.y }
  let segments := s.segments ++ List.replicate (growCount amount) lastSeg
  { s with segments := segments
           maxLength := max s.maxLength segments.length
           foodEaten := s.foodEaten + amount }

/-- `update(worldWidth, worldHeight)`: rotate toward the target angle, move,
clamp to the world bounds, re-thread the body, and pay the boost cost. -/
def update (M : MathOps) (s : Snake) (worldWidth worldHeight : ℚ) : Snake :=
  if s.alive = false then s else
  let angleDiff := wrapUp M.pi (wrapDown M.pi (s.targetAngle - s.angle))
  let angle :=
    if s.turnRate < |angleDiff| then s.angle + signQ angleDiff * s.turnRate
    else s.targetAngle
  let x := s.x + M.cos angle * s.speed
  let y := s.y + M.sin angle * s.speed
  let margin := s.headRadius
  let clampedX :=
    if x < margin ∨ worldWidth - margin < x ∨ y < margin ∨ worldHeight - margin < y then
      max margin (min (worldWidth - margin) x)
    else x
  let clampedY :=
    if x < margin ∨ worldWidth - margin < x ∨ y < margin ∨ worldHeight - margin < y then
      max margin (min (worldHeight - margin) y)
    else y
  let segments := rethread M clampedX clampedY s.segments
  let s' := { s with angle := angle, x := clampedX, y := clampedY, segments := segments }
  if s'.boosting = true ∧ MIN_LENGTH < s'.length then s'.shrink 1 else s'

/-- `getBodyPositions()`: segment circles, shrinking slightly toward the
tail. -/
def getBodyPositions (s : Snake) : List BodyPos :=
  s.segments.enum.map fun p =>
    { x := p.2.x, y := p.2.y, radius := s.segmentRadius * (1 - (p.1 : ℚ) * 0.01) }

/-- Specification-side predicate: the boundary test of `update` fired this
tick, i.e. the freshly moved head left the `[margin, world - margin]` box and
was pulled back (mirrors the `if` guarding the clamp in `update`). -/
def wasClamped (M : MathOps) (s : Snake) (worldWidth worldHeight : ℚ) : Prop :=
  let angleDiff := wrapUp M.pi (wrapDown M.pi (s.targetAngle - s.angle))
  let angle :=
    if s.turnRate < |angleDiff| then s.angle + signQ angleDiff * s.turnRate
    else s.targetAngle
  let x := s.x + M.cos angle * s.speed
  let y := s.y + M.sin angle * s.speed
  let margin := s.headRadius
  x < margin ∨ worldWidth - margin < x ∨ y < margin ∨ worldHeight - margin < y

instance (M : MathOps) (s : Snake) (w h : ℚ) : Decidable (wasClamped M s w h) := by
  unfold wasClamped; infer_instance

end Snake

/-! ## Food field (`food.js`) -/

/-- A food item.  Items produced by `Snake.toFood` carry no radius yet
(`radius := 0`); `FoodManager.addSnakeFood` computes it from the value. -/
structure Food where
  id : ℕ
  x : ℚ
  y : ℚ
  value : ℚ
  color : String
  radius : ℚ
deriving DecidableEq, Repr

def FOOD_COLORS : List String :=
  ["#FF6B6B", "#4ECDC4", "#45B7D1", "#96CEB4",
   "#FFEAA7", "#DDA0DD", "#98D8C8", "#F7DC6F",
   "#FFB6C1", "#87CEEB", "#98FB98", "#DDA0DD"]

/-- `toFood()`: five value-2 items scattered near the head, then two value-1
items near every body segment.  `startId` stands for the fresh `uuidv4()` ids
and `rng` for the `Math.random()` jitter stream. -/
def Snake.toFood (s : Snake) (startId : ℕ) (rng : ℕ → ℚ) : List Food :=
  let headFood := (List.range 5).map fun i =>
    { id := startId + i
      x := s.x + (rng (2 * i) - 0.5) * 30
      y := s.y + (rng (2 * i + 1) - 0.5) * 30
      value := 2, color := s.color, radius := 0 : Food }
  let segFood := s.segments.enum.flatMap fun p =>
    (List.range 2).map fun j =>
      { id := startId + 5 + 2 * p.1 + j
        x := p.2.x + (rng (10 + 4 * p.1 + 2 * j) - 0.5) * 20
        y := p.2.y + (rng (10 + 4 * p.1 + 2 * j + 1) - 0.5) * 20
        value := 1, color := s.color, radius := 0 : Food }
  headFood ++ segFood

/-- The number of food items `toFood` produces: 5 from the head plus 2 per
segment. -/
def Snake.toFoodCount (s : Snake) : ℕ := 5 + 2 * s.length

/-- The `FoodManager` of `food.js`.  `food` is the `Map` in insertion order,
`nextId` the fresh-uuid counter, `rng`/`rngIdx` the `Math.random()` stream. -/
structure FoodManager where
  worldWidth : ℚ
  worldHeight : ℚ
  targetFoodCount : ℕ
  food : List Food
  nextId : ℕ
  rng : ℕ → ℚ
  rngIdx : ℕ

namespace FoodManager

/-- JavaScript `Map.set`: replace in place when the key is present, append
otherwise. -/
def mapSet (l : List Food) (f : Food) : List Food :=
  if l.any fun g => g.id = f.id then
    l.map fun g => if g.id = f.id then f else g
  else l ++ [f]

/-- `spawnFood()` as called with no arguments by `update`/`initialize`: a
value-1 item at a random position inside the 50-unit margin, with a random
color. -/
def spawnFood (fm : FoodManager) : FoodManager :=
  let margin : ℚ := 50
  let x := margin + fm.rng fm.rngIdx * (fm.worldWidth - margin * 2)
  let y := margin + fm.rng (fm.rngIdx + 1) * (fm.worldHeight - margin * 2)
  let value : ℚ := 1
  let colorIdx := (⌊fm.rng (fm.rngIdx + 2) * (FOOD_COLORS.length : ℚ)⌋ : ℤ).toNat
  let f : Food :=
    { id := fm.nextId, x := x, y := y, value := value
      color := (FOOD_COLORS.get? colorIdx).getD "#FF6B6B"
      radius := 5 + value * 2 }
  { fm with food := mapSet fm.food f, nextId := fm.nextId + 1, rngIdx := fm.rngIdx + 3 }

/-- `addSnakeFood(foodArray)`: bulk `Map.set` with the radius recomputed from
the value. -/
def addSnakeFood (fm : FoodManager) (foodArray : List Food) : FoodManager :=
  { fm with food := foodArray.foldl (fun acc f =>
      mapSet acc { f with radius := 5 + f.value * 2 }) fm.food }

/-- `removeFood(id)`. -/
def removeFood (fm : FoodManager) (id : ℕ) : FoodManager :=
  { fm with food := fm.food.filter fun f => f.id ≠ id }

/-- The replenishment loop `while (food.size < targetFoodCount) spawnFood()`,
with explicit fuel.  Each spawn with a fresh id grows the map by one, so
`targetFoodCount` iterations always suffice (the source loop terminates under
the same freshness that uuids provide). -/
def updateLoop : ℕ → FoodManager → FoodManager
  | 0, fm => fm
  | n + 1, fm =>
    if fm.food.length < fm.targetFoodCount then updateLoop n fm.spawnFood else fm

/-- `update()`: replenish up to the target count. -/
def update (fm : FoodManager) : FoodManager := updateLoop fm.targetFoodCount fm

/-- `toArray()`. -/
def toArray (fm : FoodManager) : List Food := fm.food

/-- `getNearby(x, y, radius)`: squared-distance window query (the source
compares `dx*dx + dy*dy < radius*radius` directly). -/
def getNearby (fm : FoodManager) (x y radius : ℚ) : List Food :=
  fm.food.filter fun f =>
    (f.x - x) * (f.x - x) + (f.y - y) * (f.y - y) < radius * radius

end FoodManager

/-! ## Collision engine (`collision.js`) -/

/-- The object returned by `checkSnakeCollision`.  Snake references are
modelled by ids; absent fields are `none` (JavaScript `undefined`). -/
structure CollisionResult where
  killer : Option ℕ
  victim : ℕ
  headToHead : Bool
  otherVictim : Option ℕ
  segment : Option ℕ
deriving DecidableEq, Repr

/-- The inner loop of `checkSnakeCollision`: first body segment of `other`,
skipping the three segments nearest its head, whose circle meets the head
circle. -/
def bodyHitIdx (M : MathOps) (headX headY headRadius : ℚ) (segments : List BodyPos) :
    Option ℕ :=
  ((segments.enum.drop 3).find? fun p =>
    let dx := headX - p.2.x
    let dy := headY - p.2.y
    decide (M.sqrt (dx * dx + dy * dy) < headRadius + p.2.radius)).map Prod.fst

/-- One iteration of the `for (const other of otherSnakes)` loop of
`checkSnakeCollision`: body check, then the tighter head-to-head check. -/
def checkOne (M : MathOps) (snake other : Snake) : Option CollisionResult :=
  if other.id = snake.id ∨ other.alive = false then none
  else
    match bodyHitIdx M snake.x snake.y snake.headRadius other.getBodyPositions with
    | some i =>
      some { killer := some other.id, victim := snake.id, headToHead := false
             otherVictim := none, segment := some i }
    | none =>
      let dx := snake.x - other.x
      let dy := snake.y - other.y
      let otherHeadDist := M.sqrt (dx * dx + dy * dy)
      let minHeadDist := snake.headRadius + other.headRadius
      if otherHeadDist < minHeadDist * 0.8 then
        if |(snake.length : ℤ) - (other.length : ℤ)| < 3 then
          some { killer := none, victim := snake.id, headToHead := true
                 otherVictim := some other.id, segment := none }
        else if snake.length < other.length then
          some { killer := some other.id, victim := snake.id, headToHead := true
                 otherVictim := none, segment := none }
        else none
      else none

/-- `checkSnakeCollision(snake, otherSnakes)`: first match wins in iteration
order. -/
def checkSnakeCollision (M : MathOps) (snake : Snake) (otherSnakes : List Snake) :
    Option CollisionResult :=
  if snake.alive = false then none
  else otherSnakes.findSome? (checkOne M snake)

/-- `checkFoodCollision(snake, foodManager)`: all nearby items whose circle
meets the head circle. -/
def checkFoodCollision (M : MathOps) (snake : Snake) (fm : FoodManager) : List Food :=
  if snake.alive = false then []
  else
    (fm.getNearby snake.x snake.y (snake.headRadius + 20)).filter fun f =>
      let dx := snake.x - f.x
      let dy := snake.y - f.y
      decide (M.sqrt (dx * dx + dy * dy) < snake.headRadius + f.radius)

/-- `calculateBounty(victim, platformFee)`.  The JavaScript fallback
`victim.value || victim.length * 0.01` takes the length-based estimate exactly
when `value` is falsy, i.e. `0` for an always-set numeric field. -/
def calculateBounty (victim : Snake) (platformFee : ℚ) : ℚ :=
  (if victim.value = 0 then (victim.length : ℚ) * 0.01 else victim.value) *
    (1 - platformFee)

/-! ## Bot controller (`bot.js`) -/

def BOT_THINK_INTERVAL : ℕ := 10
def BOT_FOOD_SEEK_RADIUS : ℚ := 300
def BOT_DANGER_RADIUS : ℚ := 150
def BOT_WALL_MARGIN : ℚ := 100
def BOT_BOOST_CHANCE : ℚ := 0.01
def BOT_BOOST_COOLDOWN : ℕ := 300

/-- The AI state of a `BotPlayer`.  `rng`/`rngIdx` model its `Math.random()`
calls; the timed clearing of `boosting` (`setTimeout`) happens outside the
tick and is not part of the synchronous `think` step. -/
structure BotPlayer where
  id : ℕ
  name : String
  targetAngle : ℚ
  thinkTimer : ℕ
  boostTimer : ℕ
  boosting : Bool
  aggressiveness : ℚ
  foodPreference : ℚ
  rng : ℕ → ℚ
  rngIdx : ℕ

/-- `Map.get` on the room's snake collection. -/
def findSnake (snakes : List Snake) (id : ℕ) : Option Snake :=
  snakes.find? fun s => s.id = id

namespace BotPlayer

/-- `calculateWallAvoidance(x, y, worldWidth, worldHeight)`: cardinal edges
first, then the wider corner bands, else `null`. -/
def calculateWallAvoidance (M : MathOps) (x y worldWidth worldHeight : ℚ) : Option ℚ :=
  let margin := BOT_WALL_MARGIN
  if x < margin then some 0
  else if worldWidth - margin < x then some M.pi
  else if y < margin then some (M.pi / 2)
  else if worldHeight - margin < y then some (-(M.pi / 2))
  else if x < margin * 1.5 ∧ y < margin * 1.5 then some (M.pi / 4)
  else if x < margin * 1.5 ∧ worldHeight - margin * 1.5 < y then some (-(M.pi / 4))
  else if worldWidth - margin * 1.5 < x ∧ y < margin * 1.5 then some (M.pi * 3 / 4)
  else if worldWidth - margin * 1.5 < x ∧ worldHeight - margin * 1.5 < y then
    some (-(M.pi * 3 / 4))
  else none

/-- Accumulator test `dist < nearest...Dist` with `Infinity` as the initial
best distance. -/
def closer (acc : Option (α × ℚ)) (dist : ℚ) : Bool :=
  match acc with
  | none => true
  | some (_, best) => decide (dist < best)

/-- The nearest-food scan of `think`. -/
def nearestFoodScan (M : MathOps) (headX headY : ℚ) (food : List Food) :
    Option (Food × ℚ) :=
  food.foldl (fun acc f =>
    let dist := M.sqrt ((f.x - headX) * (f.x - headX) + (f.y - headY) * (f.y - headY))
    if closer acc dist then some (f, dist) else acc) none

/-- The danger scan of `think`: other heads that are at least 80% of the bot's
length, and the first ten body segments of every other snake. -/
def nearestDangerScan (M : MathOps) (botId : ℕ) (mySnake : Snake)
    (headX headY : ℚ) (snakes : List Snake) : Option (Pt × ℚ) :=
  snakes.foldl (fun acc other =>
    if other.id = botId ∨ other.alive = false then acc
    else
      let dist := M.sqrt ((other.x - headX) * (other.x - headX) +
        (other.y - headY) * (other.y - headY))
      let acc1 :=
        if closer acc dist ∧ dist < BOT_DANGER_RADIUS ∧
            (mySnake.length : ℚ) * 0.8 ≤ (other.length : ℚ) then
          some ({ x := other.x, y := other.y : Pt }, dist)
        else acc
      (other.segments.take 10).foldl (fun a seg =>
        let segDist := M.sqrt ((seg.x - headX) * (seg.x - headX) +
          (seg.y - headY) * (seg.y - headY))
        if closer a segDist ∧ segDist < BOT_DANGER_RADIUS then
          some ({ x := seg.x, y := seg.y : Pt }, segDist)
        else a) acc1) none

/-- The prey scan of priority 4: competitors shorter than 70% of the bot's
length within the 400-unit pursuit radius. -/
def preyScan (M : MathOps) (botId : ℕ) (mySnake : Snake) (headX headY : ℚ)
    (snakes : List Snake) : Option (Snake × ℚ) :=
  snakes.foldl (fun acc other =>
    if other.id = botId ∨ other.alive = false then acc
    else if (other.length : ℚ) < (mySnake.length : ℚ) * 0.7 then
      let dist := M.sqrt ((other.x - headX) * (other.x - headX) +
        (other.y - headY) * (other.y - headY))
      if closer acc dist ∧ dist < 400 then some (other, dist) else acc
    else acc) none

/-- Priorities 2-5 of `think` (after the wall-avoidance branch). -/
def thinkNoWall (M : MathOps) (b : BotPlayer) (mySnake : Snake)
    (headX headY : ℚ) (nearestFood : Option (Food × ℚ))
    (nearestDanger : Option (Pt × ℚ)) (snakes : List Snake) : BotPlayer :=
  let dangerFires :=
    match nearestDanger with
    | some (_, d) => decide (d < BOT_DANGER_RADIUS)
    | none => false
  if dangerFires then
    match nearestDanger with
    | some (dpos, ddist) =>
      let b := { b with targetAngle := M.atan2 (headY - dpos.y) (headX - dpos.x) }
      if 15 < mySnake.length ∧ ddist < 80 then { b with boosting := true } else b
    | none => b
  else
    let foodFires :=
      match nearestFood with
      | some (_, d) => decide (d < BOT_FOOD_SEEK_RADIUS * b.foodPreference)
      | none => false
    if foodFires then
      match nearestFood with
      | some (f, _) => { b with targetAngle := M.atan2 (f.y - headY) (f.x - headX) }
      | none => b
    else
      let prey :=
        if 0.7 < b.aggressiveness then preyScan M b.id mySnake headX headY snakes
        else none
      match prey with
      | some (p, _) =>
        let predictX := p.x + M.cos p.angle * p.speed * 10
        let predictY := p.y + M.sin p.angle * p.speed * 10
        { b with targetAngle := M.atan2 (predictY - headY) (predictX - headX) }
      | none =>
        let b := { b with
          targetAngle := b.targetAngle + (b.rng b.rngIdx - 0.5) * 0.3
          rngIdx := b.rngIdx + 1
          boostTimer := b.boostTimer + 1 }
        if BOT_BOOST_COOLDOWN < b.boostTimer then
          if b.rng b.rngIdx < BOT_BOOST_CHANCE then
            { b with boosting := true, boostTimer := 0, rngIdx := b.rngIdx + 1 }
          else { b with rngIdx := b.rngIdx + 1 }
        else b

/-- `think(snakes, food, worldWidth, worldHeight)`.  The wall branch is
guarded by the JavaScript truthiness test `if (wallAvoidance)`, which is
satisfied only by a non-null, nonzero heading. -/
def think (M : MathOps) (b : BotPlayer) (snakes : List Snake) (food : List Food)
    (worldWidth worldHeight : ℚ) : BotPlayer :=
  let b := { b with thinkTimer := b.thinkTimer + 1 }
  if b.thinkTimer < BOT_THINK_INTERVAL then b
  else
    let b := { b with thinkTimer := 0 }
    match findSnake snakes b.id with
    | none => b
    | some mySnake =>
      if mySnake.alive = false then b
      else
        let headX := mySnake.x
        let headY := mySnake.y
        let nearestFood := nearestFoodScan M headX headY food
        let nearestDanger := nearestDangerScan M b.id mySnake headX headY snakes
        let wallAvoidance := calculateWallAvoidance M headX headY worldWidth worldHeight
        match wallAvoidance with
        | some a =>
          if a ≠ 0 then { b with targetAngle := a, boostTimer := 0 }
          else thinkNoWall M b mySnake headX headY nearestFood nearestDanger snakes
        | none => thinkNoWall M b mySnake headX headY nearestFood nearestDanger snakes

/-- `getInput()`. -/
def getInput (b : BotPlayer) : ℚ × Bool := (b.targetAngle, b.boosting)

end BotPlayer

/-! ## Room (`room.js`) -/

/-- A stakes tier (`room_tiers` row): buy-in amount and platform fee
fraction. -/
structure Tier where
  id : ℕ
  name : String
  buyIn : ℚ
  platformFee : ℚ
deriving Repr

/-- The per-player metadata entry created by `addPlayer`. -/
structure PlayerData where
  name : String
  demoMode : Bool
  buyIn : ℚ
  earnings : ℚ
  kills : ℕ
  deaths : ℕ
deriving Repr

/-- The structured kill event returned by `handleDeath`. -/
structure KillEvent where
  killerId : Option ℕ
  killerName : String
  victimId : ℕ
  victimName : String
  bounty : ℚ
  victimLength : ℕ
deriving DecidableEq, Repr

/-- The mutable state of one `Room`: the snake map, the player-metadata map,
the bot registry and the food field, in insertion order. -/
structure RoomState where
  tier : Tier
  snakes : List Snake
  players : List (ℕ × PlayerData)
  bots : List BotPlayer
  food : FoodManager
  worldWidth : ℚ
  worldHeight : ℚ
  totalKills : ℕ

/-- Write-back of a mutated snake reference: replaces the entries carrying its
id, inserts nothing. -/
def setSnakeById (snakes : List Snake) (s : Snake) : List Snake :=
  snakes.map fun t => if t.id = s.id then s else t

/-- Write-back of a mutated player-metadata entry. -/
def updatePlayerData (players : List (ℕ × PlayerData)) (id : ℕ)
    (f : PlayerData → PlayerData) : List (ℕ × PlayerData) :=
  players.map fun p => if p.1 = id then (p.1, f p.2) else p

/-- The number of `Math.random()` calls `toFood` makes: two per head item,
four per segment (two items of two coordinates each). -/
def Snake.toFoodRandCount (s : Snake) : ℕ := 10 + 4 * s.length

namespace Room

/-- `handleDeath(victim, killer)`: mark the victim dead, drop its food,
bump the victim's death counter, and — only with a killer — transfer the
bounty and credit the kill.  The victim/killer arguments are the referenced
objects' current states; the fee fallback mirrors
`this.tier.platform_fee || 0.20`. -/
def handleDeath (r : RoomState) (victim : Snake) (killer : Option Snake) :
    RoomState × KillEvent :=
  let victimDead := victim.die
  let snakes1 := setSnakeById r.snakes victimDead
  let dropped := victimDead.toFood r.food.nextId fun n => r.food.rng (r.food.rngIdx + n)
  let food1 :=
    { r.food.addSnakeFood dropped with
      nextId := r.food.nextId + victimDead.toFoodCount
      rngIdx := r.food.rngIdx + victimDead.toFoodRandCount }
  let players1 := updatePlayerData r.players victim.id fun p =>
    { p with deaths := p.deaths + 1 }
  match killer with
  | none =>
    ({ r with snakes := snakes1, food := food1, players := players1 },
     { killerId := none, killerName := "the wall", victimId := victim.id
       victimName := victim.name, bounty := 0, victimLength := victimDead.length })
  | some k =>
    let bounty := calculateBounty victimDead
      (if r.tier.platformFee = 0 then 0.2 else r.tier.platformFee)
    let k' := { k with kills := k.kills + 1, value := k.value + bounty }
    let snakes2 := setSnakeById snakes1 k'
    let players2 := updatePlayerData players1 k.id fun p =>
      { p with kills := p.kills + 1, earnings := p.earnings + bounty }
    ({ r with snakes := snakes2, food := food1, players := players2
              totalKills := r.totalKills + 1 },
     { killerId := some k.id, killerName := k.name, victimId := victim.id
       victimName := victim.name, bounty := bounty, victimLength := victimDead.length })

/-- The state threaded through one `update()` tick: the room, the kill list
being built, and a ghost log recording the victim of every `handleDeath`
call in call order (specification instrumentation only). -/
structure TickState where
  room : RoomState
  kills : List KillEvent
  deathLog : List ℕ

/-- One `handleDeath` call site inside `update()`: resolve the referenced
victim/killer objects to their current states, apply `handleDeath`, append
the ghost log, and push the event onto the kill list when the source does. -/
def applyDeath (st : TickState) (victimId : ℕ) (killerId : Option ℕ)
    (push : Bool) : TickState :=
  match findSnake st.room.snakes victimId with
  | none => st
  | some victim =>
    match killerId with
    | none =>
      let res := handleDeath st.room victim none
      { room := res.1
        kills := if push then st.kills ++ [res.2] else st.kills
        deathLog := st.deathLog ++ [victimId] }
    | some kid =>
      match findSnake st.room.snakes kid with
      | none => st
      | some k =>
        let res := handleDeath st.room victim (some k)
        { room := res.1
          kills := if push then st.kills ++ [res.2] else st.kills
          deathLog := st.deathLog ++ [victimId] }

/-- One iteration of the `for (const snake of snakeArray)` loop of
`update()`: skip the dead, advance the snake, resolve snake collisions
(mutual head-to-head deaths are not pushed onto the kill list), then eat
food. -/
def processOne (M : MathOps) (st : TickState) (sid : ℕ) : TickState :=
  match findSnake st.room.snakes sid with
  | none => st
  | some s =>
    if s.alive = false then st
    else
      let s1 := s.update M st.room.worldWidth st.room.worldHeight
      let st1 : TickState :=
        { st with room := { st.room with snakes := setSnakeById st.room.snakes s1 } }
      let st2 :=
        match checkSnakeCollision M s1 st1.room.snakes with
        | none => st1
        | some cr =>
          if cr.headToHead = true ∧ cr.otherVictim.isSome then
            applyDeath (applyDeath st1 cr.victim none false)
              (cr.otherVictim.getD 0) none false
          else
            match cr.killer with
            | some kid => applyDeath st1 cr.victim (some kid) true
            | none => st1
      match findSnake st2.room.snakes sid with
      | none => st2
      | some sNow =>
        let eaten := checkFoodCollision M sNow st2.room.food
        let result := eaten.foldl (fun (p : Snake × FoodManager) f =>
          (p.1.grow f.value, p.2.removeFood f.id)) (sNow, st2.room.food)
        { st2 with room :=
          { st2.room with snakes := setSnakeById st2.room.snakes result.1
                          food := result.2 } }

/-- One iteration of the bot loop of `update()`: a dead or missing bot snake
is skipped (its respawn is a deferred `setTimeout` outside the tick);
otherwise the bot thinks and its decided heading and boost flag are applied
to its snake. -/
def botStep (M : MathOps) (r : RoomState) (botId : ℕ) : RoomState :=
  match r.bots.find? fun b => b.id = botId with
  | none => r
  | some bot =>
    match findSnake r.snakes botId with
    | none => r
    | some snake =>
      if snake.alive = false then r
      else
        let bot' := bot.think M r.snakes r.food.toArray r.worldWidth r.worldHeight
        let input := bot'.getInput
        let snake' := ({ snake with targetAngle := input.1 } : Snake).setBoost input.2
        { r with bots := r.bots.map fun b => if b.id = botId then bot' else b
                 snakes := setSnakeById r.snakes snake' }

/-- `update()`: bot phase, per-snake phase over the snapshot of references,
food replenishment; returns the new state, the kill events of the tick and
the ghost death log. -/
def update (M : MathOps) (r : RoomState) : RoomState × List KillEvent × List ℕ :=
  let order := r.snakes.map Snake.id
  let r1 := (r.bots.map BotPlayer.id).foldl (botStep M) r
  let final := order.foldl (processOne M) { room := r1, kills := [], deathLog := [] }
  ({ final.room with food := final.room.food.update }, final.kills, final.deathLog)

end Room

/-! ## Operation sequences on a single snake (for the length-floor
invariant) -/

/-- The externally reachable operations on one snake: steering, boost input,
a simulation tick, growth from food, the boost/shrink cost, and death. -/
inductive SnakeOp where
  | setTarget (M : MathOps) (x y : ℚ)
  | setBoost (active : Bool)
  | update (M : MathOps) (worldWidth worldHeight : ℚ)
  | grow (amount : ℚ)
  | shrink (amount : ℕ)
  | die

/-- Apply one operation. -/
def applyOp (s : Snake) : SnakeOp → Snake
  | .setTarget M x y => s.setTarget M x y
  | .setBoost a => s.setBoost a
  | .update M w h => s.update M w h
  | .grow a => s.grow a
  | .shrink n => s.shrink n
  | .die => s.die

/-- Apply a sequence of operations left to right. -/
def applyOps (ops : List SnakeOp) (s : Snake) : Snake := ops.foldl applyOp s

/-! ## Concrete instances for evaluation -/

/-- A concrete `MathOps` for closed evaluations: heading east everywhere,
with a degenerate square root.  Theorems quantified over `MathOps` are
instantiated here. -/
def M0 : MathOps :=
  { pi := 3, cos := fun _ => 1, sin := fun _ => 0
    atan2 := fun _ _ => 0, sqrt := fun _ => 0 }

/-- A `MathOps` whose square root separates short from long distances
(`0` below a squared distance of `100`, huge above), used to realize
head-to-head geometry concretely. -/
def M1 : MathOps :=
  { pi := 3, cos := fun _ => 1, sin := fun _ => 0
    atan2 := fun dy dx => dy + dx * 1000, sqrt := fun q => if q < 100 then 0 else 1000 }

/-- An empty food manager with a zero target (so that replenishment spawns
nothing during closed room evaluations). -/
def emptyFood : FoodManager :=
  { worldWidth := 1000, worldHeight := 1000, targetFoodCount := 0
    food := [], nextId := 0, rng := fun _ => 0, rngIdx := 0 }

/-- A default tier with a 20% platform fee. -/
def tier20 : Tier := { id := 1, name := "Free", buyIn := 0, platformFee := 0.2 }

/-! ## Helper lemmas -/

lemma rethread_length (M : MathOps) (lx ly : ℚ) (l : List Pt) :
    (Snake.rethread M lx ly l).length = l.length := by
  induction l generalizing lx ly with
  | nil => rfl
  | cons seg rest ih => simp [Snake.rethread, ih]

lemma popSegs_min (n : ℕ) (l : List Pt) (h : MIN_LENGTH ≤ l.length) :
    MIN_LENGTH ≤ (Snake.popSegs n l).length := by
  induction n generalizing l with
  | zero => exact h
  | succ n ih =>
    unfold Snake.popSegs
    split
    · next hlt => exact ih _ (by simp [List.length_dropLast]; omega)
    · exact h

lemma cond_shrink_min (b : Bool) (s' : Snake) (h : MIN_LENGTH ≤ s'.length) :
    MIN_LENGTH ≤
      (if b = true ∧ MIN_LENGTH < s'.length then s'.shrink 1 else s').length := by
  split
  · exact popSegs_min 1 _ h
  · exact h

lemma update_length_min (M : MathOps) (s : Snake) (w h : ℚ)
    (hs : MIN_LENGTH ≤ s.length) : MIN_LENGTH ≤ (s.update M w h).length := by
  unfold Snake.update
  split
  · exact hs
  · dsimp only
    refine cond_shrink_min _ _ ?_
    simp only [Snake.length, rethread_length]
    exact hs

lemma applyOp_length_min (s : Snake) (op : SnakeOp) (hs : MIN_LENGTH ≤ s.length) :
    MIN_LENGTH ≤ (applyOp s op).length := by
  cases op with
  | setTarget M x y => exact hs
  | setBoost a => exact hs
  | update M w h => exact update_length_min M s w h hs
  | grow a =>
    simp only [applyOp, Snake.grow, Snake.length, List.length_append] at *
    omega
  | shrink n => exact popSegs_min n _ hs
  | die => exact hs

lemma applyOps_length_min (ops : List SnakeOp) (s : Snake)
    (hs : MIN_LENGTH ≤ s.length) : MIN_LENGTH ≤ (applyOps ops s).length := by
  induction ops generalizing s with
  | nil => exact hs
  | cons op rest ih => exact ih _ (applyOp_length_min s op hs)

lemma length_map_range (f : ℕ → Pt) (n : ℕ) :
    ((List.range n).map f).length = n := by
  rw [List.length_map, List.length_range]

lemma mk0_length (M : MathOps) (id : ℕ) (name : String) (x y : ℚ)
    (color : String) (r : ℚ) :
    (Snake.mk0 M id name x y color r).length = INITIAL_LENGTH := by
  show (Snake.initSegments M x y (r * M.pi * 2)).length = INITIAL_LENGTH
  unfold Snake.initSegments
  exact length_map_range _ _

lemma findSnake_cons (t : Snake) (rest : List Snake) (j : ℕ) :
    findSnake (t :: rest) j = if t.id = j then some t else findSnake rest j := by
  by_cases h : t.id = j <;> simp [findSnake, List.find?_cons, h]

lemma setSnakeById_cons (t : Snake) (rest : List Snake) (s : Snake) :
    setSnakeById (t :: rest) s =
      (if t.id = s.id then s else t) :: setSnakeById rest s := by
  simp [setSnakeById]

lemma findSnake_set_self (l : List Snake) (s : Snake) :
    findSnake (setSnakeById l s) s.id = (findSnake l s.id).map fun _ => s := by
  induction l with
  | nil => rfl
  | cons t rest ih =>
    by_cases h : t.id = s.id
    · simp [setSnakeById_cons, findSnake_cons, h]
    · simp [setSnakeById_cons, findSnake_cons, h, ih]

lemma findSnake_set_other (l : List Snake) (s : Snake) (j : ℕ) (h : j ≠ s.id) :
    findSnake (setSnakeById l s) j = findSnake l j := by
  induction l with
  | nil => rfl
  | cons t rest ih =>
    by_cases ht : t.id = s.id
    · have h2 : ¬s.id = j := fun e => h e.symm
      have h3 : ¬t.id = j := by rw [ht]; exact h2
      simp [setSnakeById_cons, findSnake_cons, ht, h2, h3, ih]
    · simp [setSnakeById_cons, findSnake_cons, ht, ih]

lemma findSnake_set (l : List Snake) (s : Snake) (j : ℕ) :
    findSnake (setSnakeById l s) j =
      if s.id = j then (findSnake l j).map fun _ => s else findSnake l j := by
  by_cases h : s.id = j
  · subst h; rw [if_pos rfl]; exact findSnake_set_self l s
  · rw [if_neg h]; exact findSnake_set_other l s j fun e => h e.symm

lemma ite_shrink_id (c : Prop) [Decidable c] (t : Snake) :
    (if c then t.shrink 1 else t).id = t.id := by
  split <;> rfl

lemma ite_shrink_alive (c : Prop) [Decidable c] (t : Snake) :
    (if c then t.shrink 1 else t).alive = t.alive := by
  split <;> rfl

lemma ite_shrink_value (c : Prop) [Decidable c] (t : Snake) :
    (if c then t.shrink 1 else t).value = t.value := by
  split <;> rfl

lemma ite_shrink_kills (c : Prop) [Decidable c] (t : Snake) :
    (if c then t.shrink 1 else t).kills = t.kills := by
  split <;> rfl

lemma ite_shrink_name (c : Prop) [Decidable c] (t : Snake) :
    (if c then t.shrink 1 else t).name = t.name := by
  split <;> rfl

lemma ite_shrink_x (c : Prop) [Decidable c] (t : Snake) :
    (if c then t.shrink 1 else t).x = t.x := by
  split <;> rfl

lemma ite_shrink_y (c : Prop) [Decidable c] (t : Snake) :
    (if c then t.shrink 1 else t).y = t.y := by
  split <;> rfl

lemma update_id (M : MathOps) (s : Snake) (w h : ℚ) : (s.update M w h).id = s.id := by
  unfold Snake.update
  by_cases ha : s.alive = false
  · rw [if_pos ha]
  · rw [if_neg ha]; dsimp only; exact ite_shrink_id _ _

lemma update_alive (M : MathOps) (s : Snake) (w h : ℚ) :
    (s.update M w h).alive = s.alive := by
  unfold Snake.update
  by_cases ha : s.alive = false
  · rw [if_pos ha]
  · rw [if_neg ha]; dsimp only; exact ite_shrink_alive _ _

lemma update_value (M : MathOps) (s : Snake) (w h : ℚ) :
    (s.update M w h).value = s.value := by
  unfold Snake.update
  by_cases ha : s.alive = false
  · rw [if_pos ha]
  · rw [if_neg ha]; dsimp only; exact ite_shrink_value _ _

lemma update_kills (M : MathOps) (s : Snake) (w h : ℚ) :
    (s.update M w h).kills = s.kills := by
  unfold Snake.update
  by_cases ha : s.alive = false
  · rw [if_pos ha]
  · rw [if_neg ha]; dsimp only; exact ite_shrink_kills _ _

lemma update_name (M : MathOps) (s : Snake) (w h : ℚ) :
    (s.update M w h).name = s.name := by
  unfold Snake.update
  by_cases ha : s.alive = false
  · rw [if_pos ha]
  · rw [if_neg ha]; dsimp only; exact ite_shrink_name _ _

lemma eatFold_fields (eaten : List Food) (s : Snake) (fm : FoodManager) :
    ((eaten.foldl (fun (p : Snake × FoodManager) f =>
        (p.1.grow f.value, p.2.removeFood f.id)) (s, fm)).1.id = s.id ∧
     (eaten.foldl (fun (p : Snake × FoodManager) f =>
        (p.1.grow f.value, p.2.removeFood f.id)) (s, fm)).1.alive = s.alive ∧
     (eaten.foldl (fun (p : Snake × FoodManager) f =>
        (p.1.grow f.value, p.2.removeFood f.id)) (s, fm)).1.x = s.x ∧
     (eaten.foldl (fun (p : Snake × FoodManager) f =>
        (p.1.grow f.value, p.2.removeFood f.id)) (s, fm)).1.y = s.y ∧
     (eaten.foldl (fun (p : Snake × FoodManager) f =>
        (p.1.grow f.value, p.2.removeFood f.id)) (s, fm)).1.value = s.value ∧
     (eaten.foldl (fun (p : Snake × FoodManager) f =>
        (p.1.grow f.value, p.2.removeFood f.id)) (s, fm)).1.kills = s.kills) := by
  induction eaten generalizing s fm with
  | nil => exact ⟨rfl, rfl, rfl, rfl, rfl, rfl⟩
  | cons f rest ih =>
    simpa [List.foldl, Snake.grow] using ih (s.grow f.value) (fm.removeFood f.id)

lemma setSnakeById_nil (s : Snake) : setSnakeById [] s = [] := rfl

lemma findSnake_nil (j : ℕ) : findSnake [] j = none := rfl

lemma checkOne_self (M : MathOps) (s : Snake) : checkOne M s s = none := by
  simp [checkOne]

lemma singleRoom_tick (M : MathOps) (r : RoomState) (s : Snake)
    (hs : r.snakes = [s]) (hb : r.bots = []) (ha : s.alive = true) :
    (findSnake (Room.update M r).1.snakes s.id).map Snake.alive = some true ∧
    (findSnake (Room.update M r).1.snakes s.id).map Snake.x =
      some (s.update M r.worldWidth r.worldHeight).x ∧
    (findSnake (Room.update M r).1.snakes s.id).map Snake.y =
      some (s.update M r.worldWidth r.worldHeight).y ∧
    (Room.update M r).2.1 = [] ∧ (Room.update M r).2.2 = [] := by
  simp only [Room.update, hs, hb, List.map, List.foldl, Room.processOne,
    findSnake_cons, if_pos rfl, ha, Bool.true_eq_false, if_false, if_true,
    eq_self_iff_true, setSnakeById_cons, setSnakeById_nil, update_id,
    checkSnakeCollision, update_alive, List.findSome?, checkOne_self,
    findSnake_nil]
  obtain ⟨hid, halive, hx, hy, -, -⟩ := eatFold_fields
    (checkFoodCollision M (Snake.update M s r.worldWidth r.worldHeight) r.food)
    (Snake.update M s r.worldWidth r.worldHeight) r.food
  simp [hid, halive, hx, hy, update_id, update_alive, ha]

lemma die_id (t : Snake) : (Snake.die t).id = t.id := rfl

lemma die_alive (t : Snake) : (Snake.die t).alive = false := rfl

lemma die_value (t : Snake) : (Snake.die t).value = t.value := rfl

lemma die_kills (t : Snake) : (Snake.die t).kills = t.kills := rfl

lemma twoRoom_mutual (M : MathOps) (r : RoomState) (s1 s2 : Snake)
    (hs : r.snakes = [s1, s2]) (hb : r.bots = [])
    (ha1 : s1.alive = true) (ha2 : s2.alive = true) (hne : s1.id ≠ s2.id)
    (hcr : checkOne M (s1.update M r.worldWidth r.worldHeight) s2 =
      some { killer := none, victim := s1.id, headToHead := true
             otherVictim := some s2.id, segment := none }) :
    (findSnake (Room.update M r).1.snakes s1.id).map Snake.alive = some false ∧
    (findSnake (Room.update M r).1.snakes s2.id).map Snake.alive = some false ∧
    (findSnake (Room.update M r).1.snakes s1.id).map Snake.value = some s1.value ∧
    (findSnake (Room.update M r).1.snakes s2.id).map Snake.value = some s2.value ∧
    (findSnake (Room.update M r).1.snakes s1.id).map Snake.kills = some s1.kills ∧
    (findSnake (Room.update M r).1.snakes s2.id).map Snake.kills = some s2.kills ∧
    (Room.update M r).2.1 = [] ∧
    (Room.update M r).2.2 = [s1.id, s2.id] := by
  have hne' : ¬ (s2.id = s1.id) := fun e => hne e.symm
  simp only [Room.update, hs, hb, List.map, List.foldl, Room.processOne,
    Room.applyDeath, Room.handleDeath, findSnake_cons, if_pos rfl, ha1, ha2,
    Bool.true_eq_false, if_false, if_true, eq_self_iff_true,
    setSnakeById_cons, setSnakeById_nil, update_id, update_alive,
    checkSnakeCollision, List.findSome?, checkOne_self, findSnake_nil,
    hcr, hne, hne', die_id, die_alive, Option.getD, Option.isSome,
    checkFoodCollision, and_self, true_and, and_true]
  simp [die_alive, die_value, die_kills, update_value, update_kills]

lemma eatFold_id (eaten : List Food) (s : Snake) (fm : FoodManager) :
    ((eaten.foldl (fun (p : Snake × FoodManager) f =>
      (p.1.grow f.value, p.2.removeFood f.id)) (s, fm)).1.id) = s.id :=
  (eatFold_fields eaten s fm).1

lemma eatFold_alive (eaten : List Food) (s : Snake) (fm : FoodManager) :
    ((eaten.foldl (fun (p : Snake × FoodManager) f =>
      (p.1.grow f.value, p.2.removeFood f.id)) (s, fm)).1.alive) = s.alive :=
  (eatFold_fields eaten s fm).2.1

lemma eatFold_x (eaten : List Food) (s : Snake) (fm : FoodManager) :
    ((eaten.foldl (fun (p : Snake × FoodManager) f =>
      (p.1.grow f.value, p.2.removeFood f.id)) (s, fm)).1.x) = s.x :=
  (eatFold_fields eaten s fm).2.2.1

lemma eatFold_y (eaten : List Food) (s : Snake) (fm : FoodManager) :
    ((eaten.foldl (fun (p : Snake × FoodManager) f =>
      (p.1.grow f.value, p.2.removeFood f.id)) (s, fm)).1.y) = s.y :=
  (eatFold_fields eaten s fm).2.2.2.1

lemma eatFold_value (eaten : List Food) (s : Snake) (fm : FoodManager) :
    ((eaten.foldl (fun (p : Snake × FoodManager) f =>
      (p.1.grow f.value, p.2.removeFood f.id)) (s, fm)).1.value) = s.value :=
  (eatFold_fields eaten s fm).2.2.2.2.1

lemma eatFold_kills (eaten : List Food) (s : Snake) (fm : FoodManager) :
    ((eaten.foldl (fun (p : Snake × FoodManager) f =>
      (p.1.grow f.value, p.2.removeFood f.id)) (s, fm)).1.kills) = s.kills :=
  (eatFold_fields eaten s fm).2.2.2.2.2

lemma checkOne_die (M : MathOps) (a t : Snake) : checkOne M a (Snake.die t) = none := by
  simp [checkOne, Snake.die]

lemma twoRoom_kill (M : MathOps) (r : RoomState) (s1 s2 : Snake)
    (hs : r.snakes = [s1, s2]) (hb : r.bots = [])
    (ha1 : s1.alive = true) (ha2 : s2.alive = true) (hne : s1.id ≠ s2.id)
    (hcr : checkOne M (s1.update M r.worldWidth r.worldHeight) s2 =
      some { killer := some s2.id, victim := s1.id, headToHead := true
             otherVictim := none, segment := none }) :
    (findSnake (Room.update M r).1.snakes s1.id).map Snake.alive = some false ∧
    (findSnake (Room.update M r).1.snakes s2.id).map Snake.alive = some true ∧
    (findSnake (Room.update M r).1.snakes s2.id).map Snake.kills =
      some (s2.kills + 1) ∧
    (findSnake (Room.update M r).1.snakes s2.id).map Snake.value =
      some (s2.value + calculateBounty ((s1.update M r.worldWidth r.worldHeight).die)
        (if r.tier.platformFee = 0 then 0.2 else r.tier.platformFee)) ∧
    (Room.update M r).2.1 =
      [{ killerId := some s2.id, killerName := s2.name, victimId := s1.id
         victimName := s1.name
         bounty := calculateBounty ((s1.update M r.worldWidth r.worldHeight).die)
           (if r.tier.platformFee = 0 then 0.2 else r.tier.platformFee)
         victimLength := ((s1.update M r.worldWidth r.worldHeight).die).length }] ∧
    (Room.update M r).2.2 = [s1.id] := by
  have hne' : ¬ (s2.id = s1.id) := fun e => hne e.symm
  simp only [Room.update, hs, hb, List.map, List.foldl, Room.processOne,
    Room.applyDeath, Room.handleDeath, findSnake_cons, if_pos rfl, ha1, ha2,
    Bool.true_eq_false, if_false, if_true, eq_self_iff_true,
    setSnakeById_cons, setSnakeById_nil, update_id, update_alive,
    checkSnakeCollision, List.findSome?, checkOne_self, findSnake_nil,
    hcr, hne, hne', die_id, die_alive, Option.getD, Option.isSome,
    checkFoodCollision, and_self, true_and, and_true, checkOne_die,
    update_kills, update_value, update_name,
    eatFold_id, eatFold_alive, eatFold_value, eatFold_kills,
    Bool.false_eq_true]
  simp [die_alive, eatFold_alive, eatFold_kills, eatFold_value,
    update_alive, update_kills, update_value, update_name, ha2]

/-! ## Claim theorems -/

/-- C6 (confirmed): starting from a freshly constructed snake, no sequence of
operations — ticks with arbitrary boost input, growth, shrinking, steering,
death — ever brings the segment count below the minimum floor `MIN_LENGTH`:
`shrink` pops tail segments only while strictly above the floor and the
per-tick boost cost goes through `shrink`. -/
theorem C6_length_floor (M : MathOps) (id : ℕ) (name : String) (x y : ℚ)
    (color : String) (r : ℚ) (ops : List SnakeOp) :
    MIN_LENGTH ≤ (applyOps ops (Snake.mk0 M id name x y color r)).length := by
  refine applyOps_length_min ops _ ?_
  rw [mk0_length]
  norm_num [MIN_LENGTH, INITIAL_LENGTH]

/-- C7 counterexample: the claim that the boosting flag cannot remain set
once boosting has shrunk the snake to the floor is false.  A snake shrunk to
4 segments that turns on boost and takes one tick ends at the 3-segment
floor with `boosting` still `true` (`update` pays the shrink cost but never
clears the flag). -/
theorem C7_cex :
    (applyOps [.shrink 6, .setBoost true, .update M0 1000 1000]
      (Snake.mk0 M0 1 "a" 500 500 "c" 0)).boosting = true ∧
    ¬ MIN_LENGTH <
      (applyOps [.shrink 6, .setBoost true, .update M0 1000 1000]
        (Snake.mk0 M0 1 "a" 500 500 "c" 0)).length := by
  decide

/-- C7 (corrected): `setBoost` does gate the flag on the floor — after any
`setBoost` the flag is `true` exactly when boost was requested and the length
strictly exceeds `MIN_LENGTH`, and `die` clears it — but the tick itself does
not clear a flag that was legitimately set before the snake shrank to the
floor (see the counterexample). -/
theorem C7_boost_gate (s : Snake) (a : Bool) :
    ((s.setBoost a).boosting = true ↔ a = true ∧ MIN_LENGTH < s.length) ∧
    (Snake.die s).boosting = false := by
  constructor
  · simp [Snake.setBoost, Bool.and_eq_true, decide_eq_true_iff]
  · rfl

/-- The victim used in the concrete bounty evaluations: value 100, no body
segments. -/
def victim0 : Snake :=
  { id := 1, name := "v", color := "c", x := 0, y := 0, angle := 0
    targetAngle := 0, segments := [], alive := true, boosting := false
    kills := 0, value := 100, maxLength := 0, foodEaten := 0, isBot := false }

/-- The killer used in the concrete bounty evaluations. -/
def killer0 : Snake := { victim0 with id := 2, name := "k", value := 50 }

/-- A concrete room whose tier has platform fee `0`. -/
def roomFee0 : RoomState :=
  { tier := { id := 1, name := "t", buyIn := 0, platformFee := 0 }
    snakes := [victim0, killer0], players := [], bots := [], food := emptyFood
    worldWidth := 1000, worldHeight := 1000, totalKills := 0 }

/-- The same concrete room with the default 20% platform fee. -/
def roomFee20 : RoomState := { roomFee0 with tier := tier20 }

/-- C4 counterexample: with a tier platform fee of `0` — inside the claimed
range `[0, 1]` — the credited bounty is `80`, not
`victim value × (1 − 0) = 100`: the fee is read through
`this.tier.platform_fee || 0.20`, so a zero fee falls back to the default
20%. -/
theorem C4_cex :
    (Room.handleDeath roomFee0 victim0 (some killer0)).2.bounty = 80 ∧
    0 ≤ roomFee0.tier.platformFee ∧ roomFee0.tier.platformFee ≤ 1 ∧
    (Room.handleDeath roomFee0 victim0 (some killer0)).2.bounty ≠
      victim0.value * (1 - roomFee0.tier.platformFee) := by
  with_unfolding_all decide

/-- C4 (corrected): for every nonzero tier platform fee in `(0, 1]`, a
credited kill's bounty equals the victim's value — falling back to
`length × 0.01` when the value is zero (the JavaScript falsy test, the value
field is always set) — times `(1 − fee)`; a fee of exactly `0` instead falls
back to the default `0.20`. -/
theorem C4_bounty (r : RoomState) (victim killer : Snake)
    (h0 : 0 < r.tier.platformFee) (h1 : r.tier.platformFee ≤ 1) :
    (Room.handleDeath r victim (some killer)).2.bounty =
      (if victim.value = 0 then (victim.length : ℚ) * 0.01 else victim.value) *
        (1 - r.tier.platformFee) := by
  unfold Room.handleDeath
  dsimp only
  rw [if_neg (ne_of_gt h0)]
  rfl

/-- C4 witness: the corrected bounty formula evaluated in the concrete room
with the 20% fee. -/
theorem C4_bounty_witness :
    (Room.handleDeath roomFee20 victim0 (some killer0)).2.bounty =
      (if victim0.value = 0 then (victim0.length : ℚ) * 0.01 else victim0.value) *
        (1 - roomFee20.tier.platformFee) :=
  C4_bounty roomFee20 victim0 killer0 (by with_unfolding_all decide)
    (by with_unfolding_all decide)

/-- C5 counterexample: after a credited kill the victim's stored value is
still `100` — it is not decreased by the `80` bounty, so the bounty is minted
for the killer rather than transferred out of the victim. -/
theorem C5_cex :
    (findSnake (Room.handleDeath roomFee20 victim0 (some killer0)).1.snakes
      1).map Snake.value = some 100 ∧
    (Room.handleDeath roomFee20 victim0 (some killer0)).2.bounty = 80 ∧
    (100 : ℚ) ≠ 100 - 80 := by
  with_unfolding_all decide

/-- C5 (corrected): `handleDeath` with a killer credits the killer's entity
value with the bounty, but leaves the killed entity's value unchanged — no
amount is deducted from the victim. -/
theorem C5_transfer (r : RoomState) (v k : Snake) (hne : v.id ≠ k.id)
    (hv : (findSnake r.snakes v.id).isSome)
    (hk : (findSnake r.snakes k.id).isSome) :
    (findSnake (Room.handleDeath r v (some k)).1.snakes k.id).map Snake.value =
      some (k.value + (Room.handleDeath r v (some k)).2.bounty) ∧
    (findSnake (Room.handleDeath r v (some k)).1.snakes v.id).map Snake.value =
      some v.value := by
  obtain ⟨tv, htv⟩ := Option.isSome_iff_exists.mp hv
  obtain ⟨tk, htk⟩ := Option.isSome_iff_exists.mp hk
  unfold Room.handleDeath
  dsimp only
  constructor
  · rw [findSnake_set, findSnake_set]
    simp [hne, htk, Snake.die]
  · rw [findSnake_set, findSnake_set]
    simp [Ne.symm hne, htv, Snake.die]

/-- C5 witness: the corrected credit/no-deduction behavior in the concrete
room. -/
theorem C5_transfer_witness :
    (findSnake (Room.handleDeath roomFee20 victim0 (some killer0)).1.snakes
      killer0.id).map Snake.value =
      some (killer0.value +
        (Room.handleDeath roomFee20 victim0 (some killer0)).2.bounty) ∧
    (findSnake (Room.handleDeath roomFee20 victim0 (some killer0)).1.snakes
      victim0.id).map Snake.value = some victim0.value :=
  C5_transfer roomFee20 victim0 killer0 (by with_unfolding_all decide)
    (by with_unfolding_all decide) (by with_unfolding_all decide)

lemma checkOne_mutual_eval (M : MathOps) (a b : Snake)
    (hne : ¬b.id = a.id) (halive : b.alive = true)
    (hbody : bodyHitIdx M a.x a.y a.headRadius b.getBodyPositions = none)
    (hhead : M.sqrt ((a.x - b.x) * (a.x - b.x) + (a.y - b.y) * (a.y - b.y)) <
      (a.headRadius + b.headRadius) * 0.8)
    (hlen : |(a.length : ℤ) - (b.length : ℤ)| < 3) :
    checkOne M a b = some { killer := none, victim := a.id, headToHead := true
                            otherVictim := some b.id, segment := none } := by
  simp [checkOne, hne, halive, hbody, hhead, hlen]

lemma checkOne_shorter_eval (M : MathOps) (a b : Snake)
    (hne : ¬b.id = a.id) (halive : b.alive = true)
    (hbody : bodyHitIdx M a.x a.y a.headRadius b.getBodyPositions = none)
    (hhead : M.sqrt ((a.x - b.x) * (a.x - b.x) + (a.y - b.y) * (a.y - b.y)) <
      (a.headRadius + b.headRadius) * 0.8)
    (hlen : ¬|(a.length : ℤ) - (b.length : ℤ)| < 3)
    (hshort : a.length < b.length) :
    checkOne M a b = some { killer := some b.id, victim := a.id, headToHead := true
                            otherVictim := none, segment := none } := by
  simp [checkOne, hne, halive, hbody, hhead, hlen, hshort]

/-- C2 (confirmed): when the tick's collision pass registers a head-to-head
contact for the first-processed snake — heads closer (as the engine computes
distance) than 0.8 times the summed head radii, with no body hit — then: if
the lengths differ by fewer than 3 segments both snakes die with no killer
credited and no bounty (values and kill counters unchanged, no kill event);
if the other snake is longer by 3 or more, only the shorter dies and the
longer is credited as killer, gaining a kill and the bounty. -/
theorem C2_head_to_head (M : MathOps) (r : RoomState) (s1 s2 u1 : Snake)
    (hu1 : u1 = s1.update M r.worldWidth r.worldHeight)
    (hs : r.snakes = [s1, s2]) (hb : r.bots = [])
    (ha1 : s1.alive = true) (ha2 : s2.alive = true) (hne : s1.id ≠ s2.id)
    (hbody : bodyHitIdx M u1.x u1.y u1.headRadius s2.getBodyPositions = none)
    (hhead : M.sqrt ((u1.x - s2.x) * (u1.x - s2.x) + (u1.y - s2.y) * (u1.y - s2.y)) <
      (u1.headRadius + s2.headRadius) * 0.8) :
    (|(u1.length : ℤ) - (s2.length : ℤ)| < 3 →
      (findSnake (Room.update M r).1.snakes s1.id).map Snake.alive = some false ∧
      (findSnake (Room.update M r).1.snakes s2.id).map Snake.alive = some false ∧
      (findSnake (Room.update M r).1.snakes s1.id).map Snake.value = some s1.value ∧
      (findSnake (Room.update M r).1.snakes s2.id).map Snake.value = some s2.value ∧
      (findSnake (Room.update M r).1.snakes s2.id).map Snake.kills = some s2.kills ∧
      (Room.update M r).2.1 = []) ∧
    ((u1.length : ℤ) + 3 ≤ (s2.length : ℤ) →
      (findSnake (Room.update M r).1.snakes s1.id).map Snake.alive = some false ∧
      (findSnake (Room.update M r).1.snakes s2.id).map Snake.alive = some true ∧
      (findSnake (Room.update M r).1.snakes s2.id).map Snake.kills =
        some (s2.kills + 1) ∧
      (findSnake (Room.update M r).1.snakes s2.id).map Snake.value =
        some (s2.value + calculateBounty u1.die
          (if r.tier.platformFee = 0 then 0.2 else r.tier.platformFee)) ∧
      (Room.update M r).2.1 =
        [{ killerId := some s2.id, killerName := s2.name, victimId := s1.id
           victimName := s1.name
           bounty := calculateBounty u1.die
             (if r.tier.platformFee = 0 then 0.2 else r.tier.platformFee)
           victimLength := u1.die.length }]) := by
  subst hu1
  have hne2 : ¬s2.id = (s1.update M r.worldWidth r.worldHeight).id := by
    rw [update_id]; exact fun e => hne e.symm
  constructor
  · intro hlen
    have hcr := checkOne_mutual_eval M (s1.update M r.worldWidth r.worldHeight) s2
      hne2 ha2 hbody hhead hlen
    rw [update_id] at hcr
    obtain ⟨d1, d2, v1, v2, k1, k2, hk, hlog⟩ :=
      twoRoom_mutual M r s1 s2 hs hb ha1 ha2 hne hcr
    exact ⟨d1, d2, v1, v2, k2, hk⟩
  · intro hge
    have habs : ¬|((s1.update M r.worldWidth r.worldHeight).length : ℤ) -
        (s2.length : ℤ)| < 3 := by
      rw [abs_sub_comm, abs_of_nonneg (by omega)]
      omega
    have hshort : (s1.update M r.worldWidth r.worldHeight).length < s2.length := by
      omega
    have hcr := checkOne_shorter_eval M (s1.update M r.worldWidth r.worldHeight) s2
      hne2 ha2 hbody hhead habs hshort
    rw [update_id] at hcr
    obtain ⟨d1, a2', hk, hv, hev, hlog⟩ :=
      twoRoom_kill M r s1 s2 hs hb ha1 ha2 hne hcr
    exact ⟨d1, a2', hk, hv, hev⟩

def sC1 : Snake :=
  { id := 1, name := "s", color := "c", x := 990, y := 500, angle := 0
    targetAngle := 0, segments := [⟨985, 500⟩, ⟨980, 500⟩, ⟨975, 500⟩]
    alive := true, boosting := false, kills := 0, value := 0
    maxLength := 3, foodEaten := 0, isBot := false }

def roomC1 : RoomState :=
  { tier := tier20, snakes := [sC1], players := [], bots := [], food := emptyFood
    worldWidth := 1000, worldHeight := 1000, totalKills := 0 }

/-- C1 counterexample: a snake whose head is clamped to the arena boundary
this tick (`wasClamped` holds: the advance pushed it past `worldWidth`
minus its head radius and it was pulled back to `x = 984.7`) is NOT treated
as a fatal wall strike: after the Room tick it is still alive, no kill
event is returned and no `handleDeath` call occurred (empty death log). -/
theorem C1_cex :
    Snake.wasClamped M0 sC1 1000 1000 ∧
    (findSnake (Room.update M0 roomC1).1.snakes 1).map Snake.alive = some true ∧
    (findSnake (Room.update M0 roomC1).1.snakes 1).map Snake.x = some (9847/10) ∧
    (Room.update M0 roomC1).2.1 = [] ∧ (Room.update M0 roomC1).2.2 = [] := by
  norm_num [Room.update, Room.processOne, Room.botStep, Room.applyDeath,
    Room.handleDeath, checkSnakeCollision, checkOne, bodyHitIdx,
    checkFoodCollision, FoodManager.update, FoodManager.updateLoop,
    FoodManager.getNearby, FoodManager.toArray, findSnake, setSnakeById,
    Snake.update, Snake.wasClamped, Snake.headRadius, Snake.speed,
    Snake.turnRate, Snake.signQ, Snake.wrapUp, Snake.wrapDown, Snake.rethread,
    Snake.shrink, Snake.popSegs, Snake.length, Snake.getBodyPositions,
    Snake.grow, M0, sC1, roomC1, emptyFood, tier20, SEGMENT_SPACING,
    HEAD_RADIUS, SEGMENT_RADIUS, BASE_SPEED, BOOST_SPEED, TURN_RATE_BASE,
    TURN_RATE_SCALE, MIN_LENGTH, List.find?]

/-- C1 (corrected): the Room applies no wall-death at all.  In a
single-snake room the tick leaves the snake alive with its head exactly
where the Entity Model's `advance` put it (clamped to the boundary when the
move left the arena), and produces no kill events and no `handleDeath`
calls — an edge clamp is purely positional. -/
theorem C1_no_wall_death (M : MathOps) (r : RoomState) (s : Snake)
    (hs : r.snakes = [s]) (hb : r.bots = []) (ha : s.alive = true) :
    (findSnake (Room.update M r).1.snakes s.id).map Snake.alive = some true ∧
    (findSnake (Room.update M r).1.snakes s.id).map Snake.x =
      some (s.update M r.worldWidth r.worldHeight).x ∧
    (findSnake (Room.update M r).1.snakes s.id).map Snake.y =
      some (s.update M r.worldWidth r.worldHeight).y ∧
    (Room.update M r).2.1 = [] ∧ (Room.update M r).2.2 = [] :=
  singleRoom_tick M r s hs hb ha

/-- C1 witness: the corrected no-wall-death statement evaluated in the
concrete clamping room. -/
theorem C1_no_wall_death_witness :
    (findSnake (Room.update M0 roomC1).1.snakes sC1.id).map Snake.alive =
      some true ∧
    (findSnake (Room.update M0 roomC1).1.snakes sC1.id).map Snake.x =
      some (sC1.update M0 roomC1.worldWidth roomC1.worldHeight).x ∧
    (findSnake (Room.update M0 roomC1).1.snakes sC1.id).map Snake.y =
      some (sC1.update M0 roomC1.worldWidth roomC1.worldHeight).y ∧
    (Room.update M0 roomC1).2.1 = [] ∧ (Room.update M0 roomC1).2.2 = [] :=
  C1_no_wall_death M0 roomC1 sC1 rfl rfl rfl

def segsFar (n : ℕ) : List Pt := List.replicate n ⟨2000, 2000⟩

def sA2 : Snake :=
  { id := 1, name := "a", color := "c", x := 4971/10, y := 500, angle := 0
    targetAngle := 0, segments := segsFar 10, alive := true, boosting := false
    kills := 0, value := 50, maxLength := 10, foodEaten := 0, isBot := false }

def sB2 : Snake :=
  { sA2 with id := 2, name := "b", x := 500, y := 501, segments := segsFar 13
             value := 0 }

def sB3 : Snake := { sB2 with segments := segsFar 10 }

def uA2 : Snake := Snake.update M1 sA2 4000 4000

def roomC2 : RoomState :=
  { tier := tier20, snakes := [sA2, sB2], players := [], bots := []
    food := emptyFood, worldWidth := 4000, worldHeight := 4000, totalKills := 0 }

def roomC3 : RoomState := { roomC2 with snakes := [sA2, sB3] }

/-- C2 witness: the head-to-head outcome in a concrete room where the
first snake (length 10) meets a snake of length 13, exercising the
length-difference-≥-3 branch. -/
theorem C2_head_to_head_witness :
    (|(uA2.length : ℤ) - (sB2.length : ℤ)| < 3 →
      (findSnake (Room.update M1 roomC2).1.snakes sA2.id).map Snake.alive =
        some false ∧
      (findSnake (Room.update M1 roomC2).1.snakes sB2.id).map Snake.alive =
        some false ∧
      (findSnake (Room.update M1 roomC2).1.snakes sA2.id).map Snake.value =
        some sA2.value ∧
      (findSnake (Room.update M1 roomC2).1.snakes sB2.id).map Snake.value =
        some sB2.value ∧
      (findSnake (Room.update M1 roomC2).1.snakes sB2.id).map Snake.kills =
        some sB2.kills ∧
      (Room.update M1 roomC2).2.1 = []) ∧
    ((uA2.length : ℤ) + 3 ≤ (sB2.length : ℤ) →
      (findSnake (Room.update M1 roomC2).1.snakes sA2.id).map Snake.alive =
        some false ∧
      (findSnake (Room.update M1 roomC2).1.snakes sB2.id).map Snake.alive =
        some true ∧
      (findSnake (Room.update M1 roomC2).1.snakes sB2.id).map Snake.kills =
        some (sB2.kills + 1) ∧
      (findSnake (Room.update M1 roomC2).1.snakes sB2.id).map Snake.value =
        some (sB2.value + calculateBounty uA2.die
          (if roomC2.tier.platformFee = 0 then 0.2 else roomC2.tier.platformFee)) ∧
      (Room.update M1 roomC2).2.1 =
        [{ killerId := some sB2.id, killerName := sB2.name, victimId := sA2.id
           victimName := sA2.name
           bounty := calculateBounty uA2.die
             (if roomC2.tier.platformFee = 0 then 0.2 else roomC2.tier.platformFee)
           victimLength := uA2.die.length }]) :=
  C2_head_to_head M1 roomC2 sA2 sB2 uA2 rfl rfl rfl rfl rfl (by decide)
    (by norm_num [uA2, Snake.update, Snake.headRadius, Snake.speed,
      Snake.turnRate, Snake.signQ, Snake.wrapUp, Snake.wrapDown,
      Snake.rethread, Snake.shrink, Snake.popSegs, Snake.length, M1, sA2, sB2,
      segsFar, SEGMENT_SPACING, HEAD_RADIUS, BASE_SPEED, BOOST_SPEED,
      TURN_RATE_BASE, TURN_RATE_SCALE, MIN_LENGTH, List.replicate, bodyHitIdx,
      Snake.getBodyPositions, Snake.segmentRadius, SEGMENT_RADIUS, List.enum,
      List.enumFrom, List.drop, List.find?])
    (by norm_num [uA2, Snake.update, Snake.headRadius, Snake.speed,
      Snake.turnRate, Snake.signQ, Snake.wrapUp, Snake.wrapDown,
      Snake.rethread, Snake.shrink, Snake.popSegs, Snake.length, M1, sA2, sB2,
      segsFar, SEGMENT_SPACING, HEAD_RADIUS, BASE_SPEED, BOOST_SPEED,
      TURN_RATE_BASE, TURN_RATE_SCALE, MIN_LENGTH, List.replicate])

/-- C3 (corrected): for two living snakes of equal length whose heads are
within 0.8 of the summed head radii (as the engine computes distance), the
Room tick marks both snakes dead, but the returned kill-event list contains
NO entries for them: the two mutual `handleDeath` results are discarded
rather than pushed onto the tick's kill list. -/
theorem C3_equal_mutual (M : MathOps) (r : RoomState) (s1 s2 u1 : Snake)
    (hu1 : u1 = s1.update M r.worldWidth r.worldHeight)
    (hs : r.snakes = [s1, s2]) (hb : r.bots = [])
    (ha1 : s1.alive = true) (ha2 : s2.alive = true) (hne : s1.id ≠ s2.id)
    (hbody : bodyHitIdx M u1.x u1.y u1.headRadius s2.getBodyPositions = none)
    (hhead : M.sqrt ((u1.x - s2.x) * (u1.x - s2.x) + (u1.y - s2.y) * (u1.y - s2.y)) <
      (u1.headRadius + s2.headRadius) * 0.8)
    (hlen : u1.length = s2.length) :
    (findSnake (Room.update M r).1.snakes s1.id).map Snake.alive = some false ∧
    (findSnake (Room.update M r).1.snakes s2.id).map Snake.alive = some false ∧
    (Room.update M r).2.1 = [] := by
  subst hu1
  have hne2 : ¬s2.id = (s1.update M r.worldWidth r.worldHeight).id := by
    rw [update_id]; exact fun e => hne e.symm
  have hcr := checkOne_mutual_eval M (s1.update M r.worldWidth r.worldHeight) s2
    hne2 ha2 hbody hhead (by rw [hlen]; simp)
  rw [update_id] at hcr
  obtain ⟨d1, d2, -, -, -, -, hk, -⟩ :=
    twoRoom_mutual M r s1 s2 hs hb ha1 ha2 hne hcr
  exact ⟨d1, d2, hk⟩

/-- C3 counterexample: two equal-length (10) snakes in head-to-head
contact both die this tick, yet the kill-event list returned by the tick is
empty — not the two no-killer bounty-0 entries the claim requires. -/
theorem C3_cex :
    uA2.length = sB3.length ∧
    M1.sqrt ((uA2.x - sB3.x) * (uA2.x - sB3.x) + (uA2.y - sB3.y) * (uA2.y - sB3.y)) <
      (uA2.headRadius + sB3.headRadius) * 0.8 ∧
    (findSnake (Room.update M1 roomC3).1.snakes 1).map Snake.alive = some false ∧
    (findSnake (Room.update M1 roomC3).1.snakes 2).map Snake.alive = some false ∧
    (Room.update M1 roomC3).2.1 = [] := by
  have hlen : uA2.length = sB3.length := by
    norm_num [uA2, Snake.update, Snake.headRadius, Snake.speed, Snake.turnRate,
      Snake.signQ, Snake.wrapUp, Snake.wrapDown, Snake.rethread, Snake.shrink,
      Snake.popSegs, Snake.length, M1, sA2, sB2, sB3, segsFar, SEGMENT_SPACING,
      HEAD_RADIUS, BASE_SPEED, BOOST_SPEED, TURN_RATE_BASE, TURN_RATE_SCALE,
      MIN_LENGTH, List.replicate]
  have hhead : M1.sqrt ((uA2.x - sB3.x) * (uA2.x - sB3.x) +
      (uA2.y - sB3.y) * (uA2.y - sB3.y)) <
      (uA2.headRadius + sB3.headRadius) * 0.8 := by
    norm_num [uA2, Snake.update, Snake.headRadius, Snake.speed, Snake.turnRate,
      Snake.signQ, Snake.wrapUp, Snake.wrapDown, Snake.rethread, Snake.shrink,
      Snake.popSegs, Snake.length, M1, sA2, sB2, sB3, segsFar, SEGMENT_SPACING,
      HEAD_RADIUS, BASE_SPEED, BOOST_SPEED, TURN_RATE_BASE, TURN_RATE_SCALE,
      MIN_LENGTH, List.replicate]
  have hbody : bodyHitIdx M1 uA2.x uA2.y uA2.headRadius sB3.getBodyPositions =
      none := by
    norm_num [uA2, Snake.update, Snake.headRadius, Snake.speed, Snake.turnRate,
      Snake.signQ, Snake.wrapUp, Snake.wrapDown, Snake.rethread, Snake.shrink,
      Snake.popSegs, Snake.length, M1, sA2, sB2, sB3, segsFar, SEGMENT_SPACING,
      HEAD_RADIUS, BASE_SPEED, BOOST_SPEED, TURN_RATE_BASE, TURN_RATE_SCALE,
      MIN_LENGTH, List.replicate, bodyHitIdx, Snake.getBodyPositions,
      Snake.segmentRadius, SEGMENT_RADIUS, List.enum, List.enumFrom, List.drop,
      List.find?]
  have hcr := checkOne_mutual_eval M1 uA2 sB3 (by decide) rfl hbody hhead
    (by rw [hlen]; simp)
  have hcr' : checkOne M1 (Snake.update M1 sA2 roomC3.worldWidth roomC3.worldHeight)
      sB3 = some { killer := none, victim := sA2.id, headToHead := true
                   otherVictim := some sB3.id, segment := none } := by
    have hid : uA2.id = sA2.id := update_id M1 sA2 4000 4000
    rw [hid] at hcr
    exact hcr
  obtain ⟨d1, d2, -, -, -, -, hk, -⟩ :=
    twoRoom_mutual M1 roomC3 sA2 sB3 rfl rfl rfl rfl (by decide) hcr'
  exact ⟨hlen, hhead, d1, d2, hk⟩

/-- C3 witness: the corrected mutual-death/no-events statement evaluated
in the concrete equal-length room. -/
theorem C3_equal_mutual_witness :
    (findSnake (Room.update M1 roomC3).1.snakes sA2.id).map Snake.alive =
      some false ∧
    (findSnake (Room.update M1 roomC3).1.snakes sB3.id).map Snake.alive =
      some false ∧
    (Room.update M1 roomC3).2.1 = [] :=
  C3_equal_mutual M1 roomC3 sA2 sB3 uA2 rfl rfl rfl rfl rfl (by decide)
    (by norm_num [uA2, Snake.update, Snake.headRadius, Snake.speed,
      Snake.turnRate, Snake.signQ, Snake.wrapUp, Snake.wrapDown,
      Snake.rethread, Snake.shrink, Snake.popSegs, Snake.length, M1, sA2, sB2,
      sB3, segsFar, SEGMENT_SPACING, HEAD_RADIUS, BASE_SPEED, BOOST_SPEED,
      TURN_RATE_BASE, TURN_RATE_SCALE, MIN_LENGTH, List.replicate, bodyHitIdx,
      Snake.getBodyPositions, Snake.segmentRadius, SEGMENT_RADIUS, List.enum,
      List.enumFrom, List.drop, List.find?])
    (by norm_num [uA2, Snake.update, Snake.headRadius, Snake.speed,
      Snake.turnRate, Snake.signQ, Snake.wrapUp, Snake.wrapDown,
      Snake.rethread, Snake.shrink, Snake.popSegs, Snake.length, M1, sA2, sB2,
      sB3, segsFar, SEGMENT_SPACING, HEAD_RADIUS, BASE_SPEED, BOOST_SPEED,
      TURN_RATE_BASE, TURN_RATE_SCALE, MIN_LENGTH, List.replicate])
    (by norm_num [uA2, Snake.update, Snake.headRadius, Snake.speed,
      Snake.turnRate, Snake.signQ, Snake.wrapUp, Snake.wrapDown,
      Snake.rethread, Snake.shrink, Snake.popSegs, Snake.length, M1, sA2, sB2,
      sB3, segsFar, SEGMENT_SPACING, HEAD_RADIUS, BASE_SPEED, BOOST_SPEED,
      TURN_RATE_BASE, TURN_RATE_SCALE, MIN_LENGTH, List.replicate])

lemma mapSet_append (l : List Food) (f : Food) (h : ∀ g ∈ l, g.id ≠ f.id) :
    FoodManager.mapSet l f = l ++ [f] := by
  unfold FoodManager.mapSet
  have hfalse : (l.any fun g => g.id = f.id) = false := by
    rw [List.any_eq_false]
    intro g hg
    simpa using h g hg
  simp [hfalse]

/-- The item `spawnFood()` creates (specification-side name for the record
built inside `spawnFood`). -/
def spawnItem (fm : FoodManager) : Food :=
  { id := fm.nextId
    x := 50 + fm.rng fm.rngIdx * (fm.worldWidth - 50 * 2)
    y := 50 + fm.rng (fm.rngIdx + 1) * (fm.worldHeight - 50 * 2)
    value := 1
    color := (FOOD_COLORS.get?
      ((⌊fm.rng (fm.rngIdx + 2) * (FOOD_COLORS.length : ℚ)⌋ : ℤ).toNat)).getD "#FF6B6B"
    radius := 5 + 1 * 2 }

lemma spawnFood_target (fm : FoodManager) :
    fm.spawnFood.targetFoodCount = fm.targetFoodCount := rfl

lemma spawnFood_food (fm : FoodManager)
    (hfresh : ∀ f ∈ fm.food, f.id < fm.nextId) :
    fm.spawnFood.food = fm.food ++ [spawnItem fm] := by
  unfold FoodManager.spawnFood
  dsimp only
  exact mapSet_append _ _ fun g hg he => absurd (he ▸ hfresh g hg) (lt_irrefl _)

lemma updateLoop_spec (fuel : ℕ) (fm : FoodManager)
    (hfresh : ∀ f ∈ fm.food, f.id < fm.nextId)
    (hrng : ∀ n, 0 ≤ fm.rng n ∧ fm.rng n < 1)
    (hw : 100 ≤ fm.worldWidth) (hh : 100 ≤ fm.worldHeight)
    (hfuel : fm.targetFoodCount - fm.food.length ≤ fuel) :
    (FoodManager.updateLoop fuel fm).food.length =
      max fm.food.length fm.targetFoodCount ∧
    (∀ f ∈ (FoodManager.updateLoop fuel fm).food, f ∈ fm.food ∨
      (50 ≤ f.x ∧ f.x ≤ fm.worldWidth - 50 ∧
       50 ≤ f.y ∧ f.y ≤ fm.worldHeight - 50)) := by
  induction fuel generalizing fm with
  | zero =>
    unfold FoodManager.updateLoop
    exact ⟨by omega, fun f hf => Or.inl hf⟩
  | succ n ih =>
    unfold FoodManager.updateLoop
    split
    · next hlt =>
      have hsp : fm.spawnFood.food = fm.food ++ [spawnItem fm] :=
        spawnFood_food fm hfresh
      have hfresh' : ∀ f ∈ fm.spawnFood.food, f.id < fm.spawnFood.nextId := by
        rw [hsp]
        intro f hf
        rcases List.mem_append.mp hf with h1 | h2
        · have := hfresh f h1
          show f.id < fm.nextId + 1
          omega
        · simp only [List.mem_singleton] at h2
          subst h2
          show fm.nextId < fm.nextId + 1
          omega
      have hfuel' : fm.spawnFood.targetFoodCount - fm.spawnFood.food.length ≤ n := by
        rw [hsp]
        show fm.targetFoodCount - (fm.food ++ [spawnItem fm]).length ≤ n
        rw [List.length_append]
        simp only [List.length_singleton]
        omega
      obtain ⟨hl, hm⟩ := ih fm.spawnFood hfresh' hrng hw hh hfuel'
      have hmargin : 50 ≤ (spawnItem fm).x ∧ (spawnItem fm).x ≤ fm.worldWidth - 50 ∧
          50 ≤ (spawnItem fm).y ∧ (spawnItem fm).y ≤ fm.worldHeight - 50 := by
        obtain ⟨hx0, hx1⟩ := hrng fm.rngIdx
        obtain ⟨hy0, hy1⟩ := hrng (fm.rngIdx + 1)
        have hw0 : (0 : ℚ) ≤ fm.worldWidth - 50 * 2 := by linarith
        have hh0 : (0 : ℚ) ≤ fm.worldHeight - 50 * 2 := by linarith
        refine ⟨?_, ?_, ?_, ?_⟩
        · have := mul_nonneg hx0 hw0
          show 50 ≤ 50 + fm.rng fm.rngIdx * (fm.worldWidth - 50 * 2)
          linarith
        · have := mul_le_of_le_one_left hw0 (le_of_lt hx1)
          show 50 + fm.rng fm.rngIdx * (fm.worldWidth - 50 * 2) ≤ fm.worldWidth - 50
          linarith
        · have := mul_nonneg hy0 hh0
          show 50 ≤ 50 + fm.rng (fm.rngIdx + 1) * (fm.worldHeight - 50 * 2)
          linarith
        · have := mul_le_of_le_one_left hh0 (le_of_lt hy1)
          show 50 + fm.rng (fm.rngIdx + 1) * (fm.worldHeight - 50 * 2) ≤
            fm.worldHeight - 50
          linarith
      constructor
      · rw [hl, hsp]
        rw [List.length_append]
        simp only [List.length_singleton, spawnFood_target]
        omega
      · intro f hf
        rcases hm f hf with h1 | h2
        · rw [hsp] at h1
          rcases List.mem_append.mp h1 with h3 | h4
          · exact Or.inl h3
          · simp only [List.mem_singleton] at h4
            subst h4
            exact Or.inr hmargin
        · exact Or.inr h2
    · next hge =>
      exact ⟨by omega, fun f hf => Or.inl hf⟩

def burstC8 : List Food :=
  [{ id := 0, x := 100, y := 100, value := 1, color := "c", radius := 0 },
   { id := 1, x := 110, y := 100, value := 1, color := "c", radius := 0 },
   { id := 2, x := 120, y := 100, value := 2, color := "c", radius := 0 }]

def foodC8 : FoodManager :=
  FoodManager.addSnakeFood
    { worldWidth := 1000, worldHeight := 1000, targetFoodCount := 2, food := []
      nextId := 3, rng := fun _ => 0, rngIdx := 0 } burstC8

/-- C8 counterexample: a death-burst already absorbed into the field can
leave the population above the target, and repeated replenishment passes
leave it there: with target 2 and 3 burst items, the count stays 3 after
one and after two `update()` passes — the population does not converge to
the target. -/
theorem C8_cex :
    foodC8.targetFoodCount = 2 ∧ foodC8.food.length = 3 ∧
    (FoodManager.update foodC8).food.length = 3 ∧
    (FoodManager.update (FoodManager.update foodC8)).food.length = 3 ∧
    (3 : ℕ) ≠ 2 := by
  decide

/-- C8 (corrected): one replenishment pass brings the food count to
exactly `max (current, target)` — so any below-target count (including
zero) is brought to exactly the target — and every item it spawns lies
within the fixed 50-unit margin from the arena edges (given that the random
stream produces values in `[0, 1)`, as `Math.random` does).  Replenishment
never removes items, so a count above the target persists until consumed. -/
theorem C8_replenish (fm : FoodManager)
    (hfresh : ∀ f ∈ fm.food, f.id < fm.nextId)
    (hrng : ∀ n, 0 ≤ fm.rng n ∧ fm.rng n < 1)
    (hw : 100 ≤ fm.worldWidth) (hh : 100 ≤ fm.worldHeight) :
    fm.update.food.length = max fm.food.length fm.targetFoodCount ∧
    (∀ f ∈ fm.update.food, f ∈ fm.food ∨
      (50 ≤ f.x ∧ f.x ≤ fm.worldWidth - 50 ∧
       50 ≤ f.y ∧ f.y ≤ fm.worldHeight - 50)) :=
  updateLoop_spec fm.targetFoodCount fm hfresh hrng hw hh (by omega)

def foodW8 : FoodManager :=
  { worldWidth := 1000, worldHeight := 1000, targetFoodCount := 3
    food := [{ id := 0, x := 100, y := 100, value := 1, color := "c", radius := 7 }]
    nextId := 1, rng := fun _ => 1/2, rngIdx := 0 }

/-- C8 witness: the corrected replenishment statement evaluated on a
concrete manager with one item and target 3. -/
theorem C8_replenish_witness :
    foodW8.update.food.length = max foodW8.food.length foodW8.targetFoodCount ∧
    (∀ f ∈ foodW8.update.food, f ∈ foodW8.food ∨
      (50 ≤ f.x ∧ f.x ≤ foodW8.worldWidth - 50 ∧
       50 ≤ f.y ∧ f.y ≤ foodW8.worldHeight - 50)) :=
  C8_replenish foodW8 (by decide) (fun n => by norm_num [foodW8])
    (by norm_num [foodW8]) (by norm_num [foodW8])

def M9 : MathOps :=
  { pi := 3, cos := fun _ => 1, sin := fun _ => 0
    atan2 := fun dy dx => dy + dx * 1000, sqrt := fun q => if q < 100 then 0 else 100 }

def botC9 : BotPlayer :=
  { id := 5, name := "bot", targetAngle := 2, thinkTimer := 9, boostTimer := 7
    boosting := true, aggressiveness := 0, foodPreference := 1
    rng := fun _ => 0, rngIdx := 0 }

def botSnakeC9 : Snake :=
  { id := 5, name := "bot", color := "c", x := 50, y := 500, angle := 0
    targetAngle := 2, segments := [], alive := true, boosting := true
    kills := 0, value := 0, maxLength := 0, foodEaten := 0, isBot := true }

def foodC9item : Food :=
  { id := 0, x := 50, y := 400, value := 1, color := "c", radius := 7 }

/-- C9 (code bug): a bot within the wall-avoidance margin of the LEFT
edge does not get the due-east heading.  `calculateWallAvoidance` itself
answers east (`some 0`), but `think`'s guard `if (wallAvoidance)` treats
the heading `0` as falsy, skips the wall branch, and falls through — here
to food seeking, which sets a heading of `-100 ≠ 0` and leaves the boost
timer and an in-flight boost flag untouched. -/
theorem C9_left_wall_bug :
    BotPlayer.calculateWallAvoidance M9 botSnakeC9.x botSnakeC9.y 4000 4000 =
      some 0 ∧
    (botC9.think M9 [botSnakeC9] [foodC9item] 4000 4000).targetAngle = -100 ∧
    (botC9.think M9 [botSnakeC9] [foodC9item] 4000 4000).targetAngle ≠ 0 ∧
    (botC9.think M9 [botSnakeC9] [foodC9item] 4000 4000).boostTimer = 7 ∧
    (botC9.think M9 [botSnakeC9] [foodC9item] 4000 4000).boosting = true := by
  norm_num [BotPlayer.think, BotPlayer.thinkNoWall,
    BotPlayer.calculateWallAvoidance, BotPlayer.nearestFoodScan,
    BotPlayer.nearestDangerScan, BotPlayer.preyScan, BotPlayer.closer,
    findSnake, M9, botC9, botSnakeC9, foodC9item, BOT_THINK_INTERVAL,
    BOT_FOOD_SEEK_RADIUS, BOT_DANGER_RADIUS, BOT_WALL_MARGIN,
    BOT_BOOST_CHANCE, BOT_BOOST_COOLDOWN, Snake.length, List.find?, List.foldl]


/-! ## Death-uniqueness within one tick (C10) -/

lemma setSnakeById_map_id (l : List Snake) (u : Snake) :
    (setSnakeById l u).map Snake.id = l.map Snake.id := by
  induction l with
  | nil => rfl
  | cons t rest ih =>
    by_cases h : t.id = u.id
    · simp [setSnakeById_cons, h, ih]
    · simp [setSnakeById_cons, h, ih]

lemma mem_setSnakeById (l : List Snake) (u t : Snake)
    (h : t ∈ setSnakeById l u) : t = u ∨ (t ∈ l ∧ t.id ≠ u.id) := by
  induction l with
  | nil => simp [setSnakeById] at h
  | cons a rest ih =>
    rw [setSnakeById_cons] at h
    rcases List.mem_cons.mp h with h1 | h2
    · by_cases ha : a.id = u.id
      · rw [if_pos ha] at h1; exact Or.inl h1
      · rw [if_neg ha] at h1; subst h1; exact Or.inr ⟨List.mem_cons_self _ _, ha⟩
    · rcases ih h2 with h3 | ⟨h4, h5⟩
      · exact Or.inl h3
      · exact Or.inr ⟨List.mem_cons_of_mem _ h4, h5⟩

lemma findSnake_id (l : List Snake) (j : ℕ) (s : Snake)
    (h : findSnake l j = some s) : s.id = j := by
  have := List.find?_some h
  simpa using this

lemma findSnake_mem (l : List Snake) (j : ℕ) (s : Snake)
    (h : findSnake l j = some s) : s ∈ l :=
  List.mem_of_find?_eq_some h

lemma uniq_by_id (l : List Snake) (hn : (l.map Snake.id).Nodup)
    (a t : Snake) (ha : a ∈ l) (ht : t ∈ l) (he : a.id = t.id) : a = t := by
  have := List.inj_on_of_nodup_map hn
  exact this ha ht he

lemma findSnake_of_mem_nodup (l : List Snake) (hn : (l.map Snake.id).Nodup)
    (s : Snake) (hs : s ∈ l) : findSnake l s.id = some s := by
  induction l with
  | nil => simp at hs
  | cons t rest ih =>
    rw [findSnake_cons]
    rcases List.mem_cons.mp hs with h1 | h2
    · subst h1; rw [if_pos rfl]
    · by_cases ht : t.id = s.id
      · exfalso
        have : s.id ∈ rest.map Snake.id := List.mem_map_of_mem Snake.id h2
        rw [List.map_cons, List.nodup_cons] at hn
        exact hn.1 (ht ▸ this)
      · rw [if_neg ht]
        rw [List.map_cons, List.nodup_cons] at hn
        exact ih hn.2 h2

lemma checkOne_props (M : MathOps) (a b : Snake) (c : CollisionResult)
    (h : checkOne M a b = some c) :
    c.victim = a.id ∧ b.alive = true ∧ b.id ≠ a.id ∧
    (∀ ov, c.otherVictim = some ov → ov = b.id) ∧
    (∀ k, c.killer = some k → k = b.id) := by
  unfold checkOne at h
  by_cases h1 : b.id = a.id ∨ b.alive = false
  · rw [if_pos h1] at h; exact absurd h (by simp)
  · rw [if_neg h1] at h
    push_neg at h1
    obtain ⟨hne, hal⟩ := h1
    have hal' : b.alive = true := by
      cases hb : b.alive
      · exact absurd hb hal
      · rfl
    refine ?_
    rcases hbd : bodyHitIdx M a.x a.y a.headRadius b.getBodyPositions with _ | i
    · rw [hbd] at h
      dsimp only at h
      by_cases hh : M.sqrt ((a.x - b.x) * (a.x - b.x) + (a.y - b.y) * (a.y - b.y)) <
          (a.headRadius + b.headRadius) * 0.8
      · rw [if_pos hh] at h
        by_cases hl : |(a.length : ℤ) - (b.length : ℤ)| < 3
        · rw [if_pos hl] at h
          cases h
          exact ⟨rfl, hal', hne, by simp, by simp⟩
        · rw [if_neg hl] at h
          by_cases hs : a.length < b.length
          · rw [if_pos hs] at h
            cases h
            exact ⟨rfl, hal', hne, by simp, by simp⟩
          · rw [if_neg hs] at h
            exact absurd h (by simp)
      · rw [if_neg hh] at h
        exact absurd h (by simp)
    · rw [hbd] at h
      dsimp only at h
      cases h
      exact ⟨rfl, hal', hne, by simp, by simp⟩

lemma checkSnakeCollision_props (M : MathOps) (a : Snake) (lst : List Snake)
    (c : CollisionResult) (h : checkSnakeCollision M a lst = some c) :
    c.victim = a.id ∧
    (∀ ov, c.otherVictim = some ov → ov ≠ a.id ∧
      ∃ b ∈ lst, b.id = ov ∧ b.alive = true) ∧
    (∀ k, c.killer = some k → k ≠ a.id ∧
      ∃ b ∈ lst, b.id = k ∧ b.alive = true) := by
  unfold checkSnakeCollision at h
  split at h
  · exact absurd h (by simp)
  · obtain ⟨b, hb, hcb⟩ := List.exists_of_findSome?_eq_some h
    obtain ⟨hv, hba, hbne, hov, hk⟩ := checkOne_props M a b c hcb
    refine ⟨hv, ?_, ?_⟩
    · intro ov hc
      have := hov ov hc
      subst this
      exact ⟨hbne, b, hb, rfl, hba⟩
    · intro k hc
      have := hk k hc
      subst this
      exact ⟨hbne, b, hb, rfl, hba⟩

lemma handleDeath_none_snakes (r : RoomState) (v : Snake) :
    (Room.handleDeath r v none).1.snakes = setSnakeById r.snakes v.die := rfl

lemma handleDeath_some_snakes (r : RoomState) (v k : Snake) :
    (Room.handleDeath r v (some k)).1.snakes =
      setSnakeById (setSnakeById r.snakes v.die)
        { k with kills := k.kills + 1
                 value := k.value + (Room.handleDeath r v (some k)).2.bounty } := rfl

lemma handleDeath_none_log_irrelevant (r : RoomState) (v : Snake) :
    (Room.handleDeath r v none).2.victimId = v.id := rfl

lemma checkFoodCollision_dead (M : MathOps) (t : Snake) (fm : FoodManager)
    (h : t.alive = false) : checkFoodCollision M t fm = [] := by
  unfold checkFoodCollision
  rw [if_pos h]

/-- The invariant carried through one tick's snake-processing fold: the id
sequence of the snake map is stable, the ghost death log has no duplicate
victims, every logged victim's entry is dead, and every snake that was dead
at the start of the tick is still present, unchanged. -/
def TickInv (ids0 : List ℕ) (dead0 : List Snake) (st : Room.TickState) : Prop :=
  st.room.snakes.map Snake.id = ids0 ∧
  st.deathLog.Nodup ∧
  (∀ v ∈ st.deathLog, ∀ t ∈ st.room.snakes, t.id = v → t.alive = false) ∧
  (∀ s ∈ dead0, findSnake st.room.snakes s.id = some s)

lemma mem_setSnakeById_of_ne (l : List Snake) (u t : Snake)
    (ht : t ∈ l) (hne : t.id ≠ u.id) : t ∈ setSnakeById l u := by
  unfold setSnakeById
  have he : t = (fun x => if x.id = u.id then u else x) t := by simp [hne]
  rw [he]
  exact List.mem_map_of_mem _ ht

lemma write_dead_pres (snakes : List Snake) (log : List ℕ) (u : Snake)
    (hc : ∀ v ∈ log, ∀ t ∈ snakes, t.id = v → t.alive = false)
    (hcc : (∀ t ∈ snakes, t.id = u.id → t.alive = false) → u.alive = false) :
    ∀ v ∈ log, ∀ t ∈ setSnakeById snakes u, t.id = v → t.alive = false := by
  intro v hv t ht hid
  rcases mem_setSnakeById snakes u t ht with h1 | ⟨h2, h3⟩
  · subst h1
    exact hcc fun t' ht' hid' => hc v hv t' ht' (by rw [hid', hid])
  · exact hc v hv t h2 hid

lemma write_dead0_pres (snakes : List Snake) (dead0 : List Snake) (u : Snake)
    (hd : ∀ s ∈ dead0, findSnake snakes s.id = some s)
    (hdd : ∀ s ∈ dead0, s.id = u.id → u = s) :
    ∀ s ∈ dead0, findSnake (setSnakeById snakes u) s.id = some s := by
  intro s hs
  by_cases hid : u.id = s.id
  · rw [findSnake_set, if_pos hid, hd s hs]
    simp [hdd s hs hid.symm]
  · rw [findSnake_set, if_neg hid]
    exact hd s hs

lemma applyDeath_inv (ids0 : List ℕ) (dead0 : List Snake)
    (st : Room.TickState) (v : ℕ) (kid : Option ℕ) (push : Bool)
    (hinv : TickInv ids0 dead0 st) (hn : ids0.Nodup)
    (hdead : ∀ s ∈ dead0, s.alive = false)
    (hva : ∀ t ∈ st.room.snakes, t.id = v → t.alive = true)
    (hka : ∀ k, kid = some k → ∀ t ∈ st.room.snakes, t.id = k → t.alive = true)
    (hkv : ∀ k, kid = some k → k ≠ v) :
    TickInv ids0 dead0 (Room.applyDeath st v kid push) := by
  obtain ⟨ha, hb, hc, hd⟩ := hinv
  unfold Room.applyDeath
  rcases hfv : findSnake st.room.snakes v with _ | victim
  · exact ⟨ha, hb, hc, hd⟩
  · have hvid := findSnake_id _ _ _ hfv
    have hvmem := findSnake_mem _ _ _ hfv
    have hval : victim.alive = true := hva victim hvmem hvid
    have hvlog : v ∉ st.deathLog := fun hv => by
      have := hc v hv victim hvmem hvid
      rw [hval] at this
      exact Bool.true_eq_false.mp this
    have hlog' : (st.deathLog ++ [v]).Nodup := by
      simp [List.nodup_append, hb, hvlog]
    have hvdiehcc : (∀ t ∈ st.room.snakes, t.id = victim.die.id → t.alive = false) →
        victim.die.alive = false := fun _ => rfl
    have hvdiehdd : ∀ s ∈ dead0, s.id = victim.die.id → victim.die = s := by
      intro s hs hid
      exfalso
      have hsv : s.id = v := by rw [hid, die_id, hvid]
      have h1 := hd s hs
      rw [hsv, hfv] at h1
      have hh := Option.some.inj h1
      have hda := hdead s hs
      rw [← hh, hval] at hda
      exact Bool.true_eq_false.mp hda
    have hcInter : ∀ v' ∈ st.deathLog ++ [v],
        ∀ t ∈ setSnakeById st.room.snakes victim.die, t.id = v' → t.alive = false := by
      intro v' hv' t ht hid
      rcases List.mem_append.mp hv' with h1 | h2
      · exact write_dead_pres st.room.snakes st.deathLog victim.die hc hvdiehcc
          v' h1 t ht hid
      · simp only [List.mem_singleton] at h2
        subst h2
        rcases mem_setSnakeById _ _ _ ht with h3 | ⟨h4, h5⟩
        · subst h3; rfl
        · exact absurd (by rw [hid] : t.id = v') (by rw [die_id, hvid] at h5; exact h5)
    have hdInter : ∀ s ∈ dead0,
        findSnake (setSnakeById st.room.snakes victim.die) s.id = some s :=
      write_dead0_pres st.room.snakes dead0 victim.die hd hvdiehdd
    rcases kid with _ | kk
    · simp only [hfv]
      refine ⟨?_, hlog', ?_, ?_⟩
      · rw [handleDeath_none_snakes, setSnakeById_map_id]; exact ha
      · intro v' hv' t ht hid
        rw [handleDeath_none_snakes] at ht
        exact hcInter v' hv' t ht hid
      · intro s hs
        rw [handleDeath_none_snakes]
        exact hdInter s hs
    · rcases hfk : findSnake st.room.snakes kk with _ | kl
      · simp only [hfv, hfk]
        exact ⟨ha, hb, hc, hd⟩
      · have hklid := findSnake_id _ _ _ hfk
        have hklmem := findSnake_mem _ _ _ hfk
        have hklal : kl.alive = true := hka kk rfl kl hklmem hklid
        have hkkv : kk ≠ v := hkv kk rfl
        have hklinter : kl ∈ setSnakeById st.room.snakes victim.die :=
          mem_setSnakeById_of_ne _ _ _ hklmem (by rw [die_id, hvid, hklid]; exact hkkv)
        have hinterids : ((setSnakeById st.room.snakes victim.die).map Snake.id).Nodup := by
          rw [setSnakeById_map_id, ha]; exact hn
        simp only [hfv, hfk]
        refine ⟨?_, hlog', ?_, ?_⟩
        · rw [handleDeath_some_snakes, setSnakeById_map_id, setSnakeById_map_id]
          exact ha
        · intro v' hv' t ht hid
          rw [handleDeath_some_snakes] at ht
          refine write_dead_pres _ _ _ hcInter ?_ v' hv' t ht hid
          intro hdeadk
          exfalso
          have := hdeadk kl hklinter rfl
          rw [hklal] at this
          exact Bool.true_eq_false.mp this
        · intro s hs
          rw [handleDeath_some_snakes]
          refine write_dead0_pres _ _ _ hdInter ?_ s hs
          intro s' hs' hid'
          exfalso
          have h1 := hdInter s' hs'
          have hmem' := findSnake_mem _ _ _ h1
          have heq : s' = kl := uniq_by_id _ hinterids s' kl hmem' hklinter
            (by rw [hid'])
          have hda := hdead s' hs'
          rw [heq, hklal] at hda
          exact Bool.true_eq_false.mp hda

lemma applyDeath_frame (st : Room.TickState) (v : ℕ) (kid : Option ℕ)
    (push : Bool) (j : ℕ) (hjv : j ≠ v) (hjk : ∀ k, kid = some k → j ≠ k) :
    findSnake (Room.applyDeath st v kid push).room.snakes j =
      findSnake st.room.snakes j := by
  unfold Room.applyDeath
  rcases hfv : findSnake st.room.snakes v with _ | victim
  · rfl
  · have hvid := findSnake_id _ _ _ hfv
    rcases kid with _ | kk
    · simp only [hfv]
      rw [handleDeath_none_snakes]
      exact findSnake_set_other _ _ _ (by rw [die_id, hvid]; exact hjv)
    · rcases hfk : findSnake st.room.snakes kk with _ | kl
      · simp only [hfv, hfk]
      · have hklid := findSnake_id _ _ _ hfk
        simp only [hfv, hfk]
        rw [handleDeath_some_snakes]
        rw [findSnake_set_other _ _ _ (by show j ≠ kl.id; rw [hklid]; exact hjk kk rfl)]
        exact findSnake_set_other _ _ _ (by rw [die_id, hvid]; exact hjv)

lemma foodWrite_inv (M : MathOps) (ids0 : List ℕ) (dead0 : List Snake)
    (st2 : Room.TickState) (sid : ℕ) (sNow : Snake)
    (hfsn : findSnake st2.room.snakes sid = some sNow)
    (hinv : TickInv ids0 dead0 st2) (hn : ids0.Nodup)
    (hdead : ∀ s ∈ dead0, s.alive = false) :
    TickInv ids0 dead0
      { st2 with room := { st2.room with
          snakes := setSnakeById st2.room.snakes
            ((checkFoodCollision M sNow st2.room.food).foldl
              (fun (p : Snake × FoodManager) f =>
                (p.1.grow f.value, p.2.removeFood f.id)) (sNow, st2.room.food)).1
          food := ((checkFoodCollision M sNow st2.room.food).foldl
              (fun (p : Snake × FoodManager) f =>
                (p.1.grow f.value, p.2.removeFood f.id)) (sNow, st2.room.food)).2 } } := by
  obtain ⟨ha, hb, hc, hd⟩ := hinv
  have hsnid := findSnake_id _ _ _ hfsn
  have hsnmem := findSnake_mem _ _ _ hfsn
  have hFid := eatFold_id (checkFoodCollision M sNow st2.room.food) sNow st2.room.food
  have hFal := eatFold_alive (checkFoodCollision M sNow st2.room.food) sNow st2.room.food
  refine ⟨?_, hb, ?_, ?_⟩
  · show (setSnakeById st2.room.snakes _).map Snake.id = ids0
    rw [setSnakeById_map_id]; exact ha
  · show ∀ v ∈ st2.deathLog, ∀ t ∈ setSnakeById st2.room.snakes _, _
    refine write_dead_pres _ _ _ hc ?_
    intro h
    have := h sNow hsnmem hFid.symm
    rw [hFal, this]
  · show ∀ s ∈ dead0, findSnake (setSnakeById st2.room.snakes _) s.id = some s
    refine write_dead0_pres _ _ _ hd ?_
    intro s' hs' hid'
    have hsv : s'.id = sid := by rw [hid', hFid, hsnid]
    have h1 := hd s' hs'
    rw [hsv, hfsn] at h1
    have hh := Option.some.inj h1
    have hdd : sNow.alive = false := by rw [hh]; exact hdead s' hs'
    have heaten : checkFoodCollision M sNow st2.room.food = [] :=
      checkFoodCollision_dead M sNow st2.room.food hdd
    rw [heaten]
    simpa using hh

lemma processOne_inv (M : MathOps) (ids0 : List ℕ) (dead0 : List Snake)
    (st : Room.TickState) (sid : ℕ)
    (hinv : TickInv ids0 dead0 st) (hn : ids0.Nodup)
    (hdead : ∀ s ∈ dead0, s.alive = false) :
    TickInv ids0 dead0 (Room.processOne M st sid) := by
  obtain ⟨ha, hb, hc, hd⟩ := hinv
  unfold Room.processOne
  rcases hfs : findSnake st.room.snakes sid with _ | s
  · simp only [hfs]
    exact ⟨ha, hb, hc, hd⟩
  · simp only [hfs]
    by_cases hal : s.alive = false
    · rw [if_pos hal]
      exact ⟨ha, hb, hc, hd⟩
    · rw [if_neg hal]
      have hal' : s.alive = true := by
        cases h : s.alive
        · exact absurd h hal
        · rfl
      have hsid := findSnake_id _ _ _ hfs
      have hsmem := findSnake_mem _ _ _ hfs
      set u := Snake.update M s st.room.worldWidth st.room.worldHeight with hu
      have huid : u.id = s.id := by rw [hu]; exact update_id M s _ _
      have hual : u.alive = true := by rw [hu, update_alive]; exact hal'
      set sn1 := setSnakeById st.room.snakes u with hsn1
      have ha1 : sn1.map Snake.id = ids0 := by
        rw [hsn1, setSnakeById_map_id]; exact ha
      have hn1 : (sn1.map Snake.id).Nodup := by rw [ha1]; exact hn
      have hc1 : ∀ v ∈ st.deathLog, ∀ t ∈ sn1, t.id = v → t.alive = false := by
        rw [hsn1]
        refine write_dead_pres _ _ _ hc ?_
        intro h
        have := h s hsmem huid.symm
        rw [hal'] at this
        exact absurd this (by simp)
      have hd1 : ∀ s' ∈ dead0, findSnake sn1 s'.id = some s' := by
        rw [hsn1]
        refine write_dead0_pres _ _ _ hd ?_
        intro s' hs' hid'
        exfalso
        have hsv : s'.id = sid := by rw [hid', huid, hsid]
        have h1 := hd s' hs'
        rw [hsv, hfs] at h1
        have hh := Option.some.inj h1
        have hda := hdead s' hs'
        rw [← hh, hal'] at hda
        exact Bool.true_eq_false.mp hda
      have hva1 : ∀ t ∈ sn1, t.id = u.id → t.alive = true := by
        intro t ht hid
        rcases mem_setSnakeById _ _ _ (hsn1 ▸ ht) with h1 | ⟨h2, h3⟩
        · rw [h1]; exact hual
        · exact absurd hid h3
      set st1 : Room.TickState :=
        { st with room := { st.room with snakes := sn1 } } with hst1
      have hinv1 : TickInv ids0 dead0 st1 := ⟨ha1, hb, hc1, hd1⟩
      rcases hcr : checkSnakeCollision M u sn1 with _ | cr
      · simp only [hcr]
        rcases hfsn : findSnake st1.room.snakes sid with _ | sNow
        · simp only [hfsn]
          exact hinv1
        · simp only [hfsn]
          exact foodWrite_inv M ids0 dead0 st1 sid sNow hfsn hinv1 hn hdead
      · simp only [hcr]
        obtain ⟨hvict, hovp, hkp⟩ := checkSnakeCollision_props M u sn1 cr hcr
        have hva : ∀ t ∈ st1.room.snakes, t.id = cr.victim → t.alive = true := by
          intro t ht hid
          exact hva1 t ht (by rw [hid, hvict])
        by_cases hcond : cr.headToHead = true ∧ cr.otherVictim.isSome = true
        · rw [if_pos hcond]
          rcases hov : cr.otherVictim with _ | ov
          · rw [hov] at hcond
            exact absurd hcond.2 (by simp)
          · simp only [hov, Option.getD_some]
            obtain ⟨hovne, b, hbmem, hbid, hbal⟩ := hovp ov hov
            have hinv2a : TickInv ids0 dead0
                (Room.applyDeath st1 cr.victim none false) :=
              applyDeath_inv ids0 dead0 st1 cr.victim none false hinv1 hn hdead hva
                (by intro k hk; exact absurd hk (by simp))
                (by intro k hk; exact absurd hk (by simp))
            have hfind1 : findSnake sn1 ov = some b := by
              rw [← hbid]
              exact findSnake_of_mem_nodup _ hn1 b hbmem
            have hfr := applyDeath_frame st1 cr.victim none false ov
              (by rw [hvict]; exact hovne)
              (by intro k hk; exact absurd hk (by simp))
            have hva2 : ∀ t ∈ (Room.applyDeath st1 cr.victim none false).room.snakes,
                t.id = ov → t.alive = true := by
              intro t ht hid
              have hfind2 : findSnake
                  (Room.applyDeath st1 cr.victim none false).room.snakes ov = some b := by
                rw [hfr]; exact hfind1
              have hbmem2 := findSnake_mem _ _ _ hfind2
              have hn2 : (((Room.applyDeath st1 cr.victim none false).room.snakes).map
                  Snake.id).Nodup := by
                rw [hinv2a.1]; exact hn
              have := uniq_by_id _ hn2 t b ht hbmem2 (by rw [hid, ← hbid])
              rw [this]
              exact hbal
            have hinv2 : TickInv ids0 dead0
                (Room.applyDeath (Room.applyDeath st1 cr.victim none false) ov none false) :=
              applyDeath_inv ids0 dead0 _ ov none false hinv2a hn hdead hva2
                (by intro k hk; exact absurd hk (by simp))
                (by intro k hk; exact absurd hk (by simp))
            rcases hfsn : findSnake (Room.applyDeath
                (Room.applyDeath st1 cr.victim none false) ov none false).room.snakes sid
              with _ | sNow
            · simp only [hfsn]
              exact hinv2
            · simp only [hfsn]
              exact foodWrite_inv M ids0 dead0 _ sid sNow hfsn hinv2 hn hdead
        · rw [if_neg hcond]
          rcases hk : cr.killer with _ | kid
          · simp only [hk]
            rcases hfsn : findSnake st1.room.snakes sid with _ | sNow
            · simp only [hfsn]
              exact hinv1
            · simp only [hfsn]
              exact foodWrite_inv M ids0 dead0 st1 sid sNow hfsn hinv1 hn hdead
          · simp only [hk]
            obtain ⟨hkne, b, hbmem, hbid, hbal⟩ := hkp kid hk
            have hka : ∀ k, (some kid : Option ℕ) = some k →
                ∀ t ∈ st1.room.snakes, t.id = k → t.alive = true := by
              intro k hkk t ht hid
              have hkeq : k = kid := (Option.some.inj hkk).symm
              subst hkeq
              have := uniq_by_id _ hn1 t b ht hbmem (by rw [hid, ← hbid])
              rw [this]
              exact hbal
            have hinv2 : TickInv ids0 dead0
                (Room.applyDeath st1 cr.victim (some kid) true) :=
              applyDeath_inv ids0 dead0 st1 cr.victim (some kid) true hinv1 hn hdead hva
                hka
                (by intro k hkk
                    have hkeq : k = kid := (Option.some.inj hkk).symm
                    subst hkeq
                    rw [hvict]
                    exact hkne)
            rcases hfsn : findSnake
                (Room.applyDeath st1 cr.victim (some kid) true).room.snakes sid with _ | sNow
            · simp only [hfsn]
              exact hinv2
            · simp only [hfsn]
              exact foodWrite_inv M ids0 dead0 _ sid sNow hfsn hinv2 hn hdead

lemma botStep_pres (M : MathOps) (ids0 : List ℕ) (dead0 : List Snake)
    (r : RoomState) (bid : ℕ)
    (hids : r.snakes.map Snake.id = ids0) (hn : ids0.Nodup)
    (hdead : ∀ s ∈ dead0, s.alive = false)
    (hd : ∀ s ∈ dead0, findSnake r.snakes s.id = some s) :
    (Room.botStep M r bid).snakes.map Snake.id = ids0 ∧
    (∀ s ∈ dead0, findSnake (Room.botStep M r bid).snakes s.id = some s) := by
  unfold Room.botStep
  rcases hb : r.bots.find? fun b => b.id = bid with _ | bot
  · simp only [hb]
    exact ⟨hids, hd⟩
  · simp only [hb]
    rcases hfs : findSnake r.snakes bid with _ | snake
    · simp only [hfs]
      exact ⟨hids, hd⟩
    · simp only [hfs]
      by_cases hal : snake.alive = false
      · rw [if_pos hal]
        exact ⟨hids, hd⟩
      · rw [if_neg hal]
        dsimp only
        set input := (bot.think M r.snakes r.food.toArray r.worldWidth r.worldHeight).getInput
          with hin
        set u := ({ snake with targetAngle := input.1 } : Snake).setBoost input.2 with huu
        have huid : u.id = snake.id := by rw [huu]; rfl
        have hual : u.alive = snake.alive := by rw [huu]; rfl
        constructor
        · rw [setSnakeById_map_id]; exact hids
        · refine write_dead0_pres _ _ _ hd ?_
          intro s hs hid'
          exfalso
          have hsm : s ∈ r.snakes := findSnake_mem _ _ _ (hd s hs)
          have hsnm : snake ∈ r.snakes := findSnake_mem _ _ _ hfs
          have hse : s = snake := by
            refine uniq_by_id r.snakes ?_ s snake hsm hsnm (by rw [hid', huid])
            rw [hids]; exact hn
          rw [hse] at hs
          exact hal (hdead snake hs)

lemma botFold_pres (M : MathOps) (ids0 : List ℕ) (dead0 : List Snake)
    (hn : ids0.Nodup) (hdead : ∀ s ∈ dead0, s.alive = false) :
    ∀ (bl : List ℕ) (r : RoomState),
      r.snakes.map Snake.id = ids0 →
      (∀ s ∈ dead0, findSnake r.snakes s.id = some s) →
      (bl.foldl (Room.botStep M) r).snakes.map Snake.id = ids0 ∧
      (∀ s ∈ dead0, findSnake (bl.foldl (Room.botStep M) r).snakes s.id = some s) := by
  intro bl
  induction bl with
  | nil => intro r hids hd; exact ⟨hids, hd⟩
  | cons b rest ih =>
    intro r hids hd
    obtain ⟨h1, h2⟩ := botStep_pres M ids0 dead0 r b hids hn hdead hd
    exact ih _ h1 h2

lemma processFold_inv (M : MathOps) (ids0 : List ℕ) (dead0 : List Snake)
    (hn : ids0.Nodup) (hdead : ∀ s ∈ dead0, s.alive = false) :
    ∀ (order : List ℕ) (st : Room.TickState),
      TickInv ids0 dead0 st →
      TickInv ids0 dead0 (order.foldl (Room.processOne M) st) := by
  intro order
  induction order with
  | nil => intro st h; exact h
  | cons sid rest ih =>
    intro st h
    exact ih _ (processOne_inv M ids0 dead0 st sid h hn hdead)

/-- The one-dead-snake room used to instantiate the per-tick death-uniqueness
theorem concretely. -/
def roomW10 : RoomState :=
  { tier := tier20
    snakes := [(Snake.mk0 M0 7 "w" 500 500 "c" 0).die]
    players := [], bots := [], food := emptyFood
    worldWidth := 1000, worldHeight := 1000, totalKills := 0 }

/-- C10: within one Room tick, each snake dies at most once.  Provided the
snake map carries distinct ids (a JS `Map` guarantees this), the ghost log of
`handleDeath` victims produced by one `update()` call has no duplicates — so
the food drop and death-counter increment run at most once per snake — and
every snake that entered the tick dead is skipped entirely: its entry is
still present and bit-for-bit unchanged after the tick. -/
theorem C10_death_once (M : MathOps) (r : RoomState)
    (hids : (r.snakes.map Snake.id).Nodup) :
    (Room.update M r).2.2.Nodup ∧
    (∀ s ∈ r.snakes, s.alive = false →
      findSnake (Room.update M r).1.snakes s.id = some s) := by
  have hdead : ∀ s ∈ r.snakes.filter (fun s => s.alive = false), s.alive = false := by
    intro s hs
    simpa using (List.mem_filter.mp hs).2
  have hd0 : ∀ s ∈ r.snakes.filter (fun s => s.alive = false),
      findSnake r.snakes s.id = some s := by
    intro s hs
    exact findSnake_of_mem_nodup _ hids s (List.mem_filter.mp hs).1
  obtain ⟨hb1, hb2⟩ := botFold_pres M (r.snakes.map Snake.id)
    (r.snakes.filter fun s => s.alive = false) hids hdead
    (r.bots.map BotPlayer.id) r rfl hd0
  have hinv0 : TickInv (r.snakes.map Snake.id)
      (r.snakes.filter fun s => s.alive = false)
      { room := (r.bots.map BotPlayer.id).foldl (Room.botStep M) r
        kills := [], deathLog := [] } := by
    refine ⟨hb1, List.nodup_nil, ?_, hb2⟩
    intro v hv
    simp at hv
  obtain ⟨hfa, hfb, hfc, hfd⟩ := processFold_inv M (r.snakes.map Snake.id)
    (r.snakes.filter fun s => s.alive = false) hids hdead
    (r.snakes.map Snake.id)
    { room := (r.bots.map BotPlayer.id).foldl (Room.botStep M) r
      kills := [], deathLog := [] } hinv0
  constructor
  · exact hfb
  · intro s hs hsal
    have hmem : s ∈ r.snakes.filter fun s => s.alive = false := by
      rw [List.mem_filter]
      exact ⟨hs, by simp [hsal]⟩
    exact hfd s hmem

/-- Witness: the death-uniqueness theorem applied to a concrete room holding
one already-dead snake. -/
theorem C10_death_once_witness :
    (roomW10.snakes.map Snake.id).Nodup ∧
    ((Room.update M0 roomW10).2.2.Nodup ∧
     ∀ s ∈ roomW10.snakes, s.alive = false →
       findSnake (Room.update M0 roomW10).1.snakes s.id = some s) :=
  ⟨by decide, C10_death_once M0 roomW10 (by decide)⟩

end SlitherStakes
